import Mathlib

set_option maxRecDepth 8000

namespace PizzaAssist

/-! Shallow embedding of the PizzaAssist core (src/core/memory.py,
src/core/agent.py, src/core/tool_registry.py, src/core/validation_utils.py,
src/core/vector_store.py).  Python runtime values are modelled by the
inductive type `PyVal`; Python dicts become association lists, module-level
mutable state becomes explicit state records, and the external
collaborators (the Ollama chat backend, the Chroma vector store, `json`
parsing of arbitrary strings, `uuid4`, wall-clock time) become parameters
of the embedded functions. -/

/-- Model of a Python runtime value as it flows through the session store.
The atom constructors mirror the types tested by `isinstance` in
`make_serializable` (`str`, `int`, `float`, `bool`, `NoneType`); the
containers mirror `list`, `tuple` and `dict`; `obj` stands for any other
Python object, carried together with the string that `str(object)` yields
for it.  Floats are carried opaquely by their printed representation and
no float arithmetic is modelled. -/
inductive PyVal : Type where
  | none : PyVal
  | bool (b : Bool) : PyVal
  | int (n : Int) : PyVal
  | float (r : String) : PyVal
  | str (s : String) : PyVal
  | list (xs : List PyVal) : PyVal
  | tuple (xs : List PyVal) : PyVal
  | dict (es : List (PyVal × PyVal)) : PyVal
  | obj (r : String) : PyVal

/-- Model of the builtin `str()`.  It is exact on the atom cases, which are
the only cases any proof relies on (a dictionary key reaching `str(k)`
inside `make_serializable`, and tool names reaching an f-string); the
rendering of containers is schematic (Python would use `repr` of the
elements) and no theorem depends on it. -/
def pyStr : PyVal → String
  | PyVal.none => "None"
  | PyVal.bool b => if b then "True" else "False"
  | PyVal.int n => toString n
  | PyVal.float r => r
  | PyVal.str s => s
  | PyVal.list _ => "[...]"
  | PyVal.tuple _ => "(...)"
  | PyVal.dict _ => "\x7b...\x7d"
  | PyVal.obj r => r

mutual

/-- Embedding of `make_serializable` (src/core/memory.py, lines 13-22).
`str`/`int`/`float`/`bool`/`None` pass through, lists and tuples map to
lists of recursively converted items, dicts map keys through `str` and
convert values recursively, and every other object falls to the `else`
branch `return str(obj)`. -/
def make_serializable : PyVal → PyVal
  | PyVal.none => PyVal.none
  | PyVal.bool b => PyVal.bool b
  | PyVal.int n => PyVal.int n
  | PyVal.float r => PyVal.float r
  | PyVal.str s => PyVal.str s
  | PyVal.list xs => PyVal.list (msList xs)
  | PyVal.tuple xs => PyVal.list (msList xs)
  | PyVal.dict es => PyVal.dict (msEntries es)
  | PyVal.obj r => PyVal.str r

/-- The list comprehension `[make_serializable(item) for item in obj]`. -/
def msList : List PyVal → List PyVal
  | [] => []
  | x :: xs => make_serializable x :: msList xs

/-- The dict comprehension
`{str(k): make_serializable(v) for k, v in obj.items()}`. -/
def msEntries : List (PyVal × PyVal) → List (PyVal × PyVal)
  | [] => []
  | (k, v) :: es => (PyVal.str (pyStr k), make_serializable v) :: msEntries es

end

mutual

/-- A value is canonical (JSON-serializable in the sense of the spec) when
it is built only from `None`, booleans, numbers, strings, lists of
canonical values, and dicts whose keys are strings and whose values are
canonical.  Tuples and opaque objects are not canonical. -/
def isCanonical : PyVal → Bool
  | PyVal.none => true
  | PyVal.bool _ => true
  | PyVal.int _ => true
  | PyVal.float _ => true
  | PyVal.str _ => true
  | PyVal.list xs => isCanonicalList xs
  | PyVal.tuple _ => false
  | PyVal.dict es => isCanonicalEntries es
  | PyVal.obj _ => false

def isCanonicalList : List PyVal → Bool
  | [] => true
  | x :: xs => isCanonical x && isCanonicalList xs

def isCanonicalEntries : List (PyVal × PyVal) → Bool
  | [] => true
  | (k, v) :: es =>
      (match k with
        | PyVal.str _ => true
        | _ => false) && isCanonical v && isCanonicalEntries es

end

/-! ## Python dict / truthiness helpers -/

/-- Lookup in the association-list model of a Python dict: Python dicts have
unique keys, so the first binding is the binding.  Models `d.get(key)`,
returning `Option.none` where Python returns `None` for a missing key. -/
def dictGet : List (PyVal × PyVal) → String → Option PyVal
  | [], _ => Option.none
  | (k0, v0) :: es, k =>
      match k0 with
      | PyVal.str s => if s = k then some v0 else dictGet es k
      | _ => dictGet es k

/-- Model of `d[key] = value`: an existing binding is updated in place, a
new key is appended, preserving Python dict insertion order. -/
def dictSet : List (PyVal × PyVal) → String → PyVal → List (PyVal × PyVal)
  | [], k, v => [(PyVal.str k, v)]
  | (k0, v0) :: es, k, v =>
      match k0 with
      | PyVal.str s =>
          if s = k then (PyVal.str s, v) :: es
          else (PyVal.str s, v0) :: dictSet es k v
      | other => (other, v0) :: dictSet es k v

/-- `v.get key` on a message value: dict lookup, `None` on anything else. -/
def PyVal.get (v : PyVal) (k : String) : Option PyVal :=
  match v with
  | PyVal.dict es => dictGet es k
  | _ => Option.none

/-- `v[key] = x` on a message value (no-op on non-dicts; the code only ever
mutates dict-shaped messages). -/
def PyVal.set (v : PyVal) (k : String) (x : PyVal) : PyVal :=
  match v with
  | PyVal.dict es => PyVal.dict (dictSet es k x)
  | other => other

/-- Python truthiness.  Exact on `None`, booleans, integers, strings, lists,
tuples and dicts; a float is truthy unless it prints as zero (the only
cases any proof exercises are `None`, strings, lists and dicts). -/
def pyTruthy : PyVal → Bool
  | PyVal.none => false
  | PyVal.bool b => b
  | PyVal.int n => decide (n ≠ 0)
  | PyVal.float r => decide (r ≠ "0.0" ∧ r ≠ "-0.0")
  | PyVal.str s => decide (s ≠ "")
  | PyVal.list xs => !xs.isEmpty
  | PyVal.tuple xs => !xs.isEmpty
  | PyVal.dict es => !es.isEmpty
  | PyVal.obj _ => true

/-- Truthiness of the result of `d.get(key)` (a missing key is `None`). -/
def pyTruthyOpt : Option PyVal → Bool
  | Option.none => false
  | some v => pyTruthy v

/-- Model of `x is None` applied to the result of `d.get(key)`: true both
when the key is missing and when it maps to `None`. -/
def isPyNone : Option PyVal → Bool
  | Option.none => true
  | some PyVal.none => true
  | some _ => false

/-- An `Optional[str]` as stored into a message field: `None` or the
string. -/
def optStr : Option String → PyVal
  | Option.none => PyVal.none
  | some s => PyVal.str s

mutual

/-- Model of `json.dumps`.  Only determinism matters to the proofs (the
rendered text feeds attempt-counter keys and error payloads and is never
inspected); string escaping is not modelled and `sort_keys=True` is the
identity on the association-list representation, whose key order is kept
as given. -/
def jsonDumps : PyVal → String
  | PyVal.none => "null"
  | PyVal.bool b => if b then "true" else "false"
  | PyVal.int n => toString n
  | PyVal.float r => r
  | PyVal.str s => "\"" ++ s ++ "\""
  | PyVal.list xs => "[" ++ jsonDumpsList xs ++ "]"
  | PyVal.tuple xs => "[" ++ jsonDumpsList xs ++ "]"
  | PyVal.dict es => "\x7b" ++ jsonDumpsEntries es ++ "\x7d"
  | PyVal.obj r => r

def jsonDumpsList : List PyVal → String
  | [] => ""
  | [x] => jsonDumps x
  | x :: y :: xs => jsonDumps x ++ ", " ++ jsonDumpsList (y :: xs)

def jsonDumpsEntries : List (PyVal × PyVal) → String
  | [] => ""
  | [(k, v)] => jsonDumps k ++ ": " ++ jsonDumps v
  | (k, v) :: e :: es =>
      jsonDumps k ++ ": " ++ jsonDumps v ++ ", " ++ jsonDumpsEntries (e :: es)

end

/-! ## Session Store: `ChatHistoryManager` (src/core/memory.py) -/

/-- Python slice `xs[-k:]` for a nonnegative `k`: the last `k` elements,
except that `k = 0` gives `xs[0:]`, the whole list. -/
def pyTail (k : Nat) (xs : List α) : List α :=
  if k = 0 then xs else xs.rtake k

/-- Point update of a function-typed model of a Python dict keyed by
strings. -/
def mapSet (f : String → Option α) (k : String) (v : α) : String → Option α :=
  fun q => if q = k then some v else f q

/-- In-place update of the association-list model of the per-session
attempt-counter dict. -/
def alistSet : List (String × Nat) → String → Nat → List (String × Nat)
  | [], k, v => [(k, v)]
  | (k0, v0) :: es, k, v =>
      if k0 = k then (k0, v) :: es else (k0, v0) :: alistSet es k v

/-- State of a `ChatHistoryManager` (src/core/memory.py, lines 24-44).
The four per-session dicts become function-typed maps; `history_dir`
persistence is modelled functionally by `save_history`/`load_history`
below (the automatic save inside `add_message`/`set_system_message` does
not change the in-memory state, and the file it would write is exactly
`save_history` of the post-insert state), so neither `history_dir` nor the
`_is_loading` flag appears in the state. -/
structure ChatHistoryManager where
  max_history : Nat
  conversations : String → Option (List PyVal)
  system_messages : String → Option PyVal
  function_call_attempts : String → Option (List (String × Nat))
  sequence_counters : String → Option Nat

/-- A manager with no sessions and the given retention limit. -/
def emptyCHM (maxHistory : Nat) : ChatHistoryManager :=
  ⟨maxHistory, fun _ => Option.none, fun _ => Option.none,
    fun _ => Option.none, fun _ => Option.none⟩

/-- `ChatHistoryManager()` constructed without an explicit `max_history`:
the `__init__` default (src/core/memory.py, line 26) is `10`. -/
def defaultCHM : ChatHistoryManager := emptyCHM 10

namespace ChatHistoryManager

/-- `_ensure_session` (lines 52-59): create the missing per-session
entries (`_conversations` as `[]`, `_function_call_attempts` as an empty
dict, `_sequence_counters` as `0`).  An entry that is already present is
kept, which is what `getD` yields on a `some`. -/
def ensure_session (m : ChatHistoryManager) (sid : String) :
    ChatHistoryManager :=
  { m with
      conversations :=
        mapSet m.conversations sid ((m.conversations sid).getD []),
      function_call_attempts :=
        mapSet m.function_call_attempts sid
          ((m.function_call_attempts sid).getD []),
      sequence_counters :=
        mapSet m.sequence_counters sid
          ((m.sequence_counters sid).getD 0) }

/-- `add_message` (lines 69-102): serialize the message, split off the
pinned system message (the slice `[1:]`) when one is set, append, trim the
non-system part to the last `max_history` entries, and rebuild the full
history with the system message first. -/
def add_message (m : ChatHistoryManager) (sid : String) (msg : PyVal) :
    ChatHistoryManager :=
  let m := m.ensure_session sid
  let ser := make_serializable msg
  let conv := (m.conversations sid).getD []
  let nonSys := if (m.system_messages sid).isSome then conv.drop 1 else conv
  let nonSys := nonSys ++ [ser]
  let nonSys :=
    if m.max_history < nonSys.length then pyTail m.max_history nonSys
    else nonSys
  let conv :=
    match m.system_messages sid with
    | some sysMsg => sysMsg :: nonSys
    | Option.none => nonSys
  { m with conversations := mapSet m.conversations sid conv }

/-- `_rebuild_history` (lines 196-210): recompute the stored history from
the current system message and the tail of the previous history. -/
def rebuild_history (m : ChatHistoryManager) (sid : String) :
    ChatHistoryManager :=
  let m := m.ensure_session sid
  let conv := (m.conversations sid).getD []
  let nonSys := if (m.system_messages sid).isSome then conv.drop 1 else conv
  let nonSys :=
    if m.max_history < nonSys.length then pyTail m.max_history nonSys
    else nonSys
  let conv :=
    match m.system_messages sid with
    | some sysMsg => sysMsg :: nonSys
    | Option.none => nonSys
  { m with conversations := mapSet m.conversations sid conv }

/-- `set_system_message` (lines 61-67): serialize and pin the system
message, then rebuild the history. -/
def set_system_message (m : ChatHistoryManager) (sid : String)
    (msg : PyVal) : ChatHistoryManager :=
  let m := m.ensure_session sid
  let m :=
    { m with system_messages :=
        mapSet m.system_messages sid (make_serializable msg) }
  m.rebuild_history sid

/-- `get_recent_messages` (lines 123-134).  With `count = None` the whole
stored history; otherwise `messages[:1] + messages[-count:]` when a system
message is pinned, `messages[-count:]` when not. -/
def get_recent_messages (m : ChatHistoryManager) (sid : String)
    (count : Option Nat) : List PyVal :=
  let conv := ((m.ensure_session sid).conversations sid).getD []
  match count with
  | Option.none => conv
  | some c =>
      if (m.system_messages sid).isSome then conv.take 1 ++ pyTail c conv
      else pyTail c conv

/-- `next_sequence` (lines 212-216): increment and return the per-session
counter. -/
def next_sequence (m : ChatHistoryManager) (sid : String) :
    ChatHistoryManager × Nat :=
  let m := m.ensure_session sid
  let n := (m.sequence_counters sid).getD 0 + 1
  ({ m with sequence_counters := mapSet m.sequence_counters sid n }, n)

/-- `record_function_attempt` (lines 136-143).  The key is
`f"{function_name}:{json.dumps(args, sort_keys=True)}"`. -/
def record_function_attempt (m : ChatHistoryManager) (sid : String)
    (function_name : String) (args : PyVal) : ChatHistoryManager × Nat :=
  let m := m.ensure_session sid
  let key := function_name ++ ":" ++ jsonDumps args
  let attempts := (m.function_call_attempts sid).getD []
  let n := (attempts.lookup key).getD 0 + 1
  ({ m with function_call_attempts :=
      mapSet m.function_call_attempts sid (alistSet attempts key n) }, n)

/-- `save_history` (lines 145-162) writes one JSON line per stored message,
each line `json.dumps(make_serializable(msg))`.  The JSON text round-trip
is the identity on canonical values, so the file is modelled as the list
of serialized messages.  A session with no conversation entry hits the
`KeyError` path (caught and logged after `open(..., "w")`): no complete
record stream is produced, modelled as `Option.none`. -/
def save_history (m : ChatHistoryManager) (sid : String) :
    Option (List PyVal) :=
  (m.conversations sid).map (fun conv => conv.map make_serializable)

/-- `load_history` (lines 164-194) on an existing history file: the parsed
lines replace the session history wholesale, and when the first record has
`role == "system"` it is additionally pinned as the system message.
Sequence counters and attempt counts are not restored. -/
def load_history (m : ChatHistoryManager) (sid : String)
    (fileLines : List PyVal) : ChatHistoryManager :=
  match fileLines.head? with
  | some first =>
      match first.get "role" with
      | some (PyVal.str s) =>
          if s = "system" then
            { m with
                system_messages := mapSet m.system_messages sid first,
                conversations := mapSet m.conversations sid fileLines }
          else { m with conversations := mapSet m.conversations sid fileLines }
      | _ => { m with conversations := mapSet m.conversations sid fileLines }
  | Option.none =>
      { m with conversations := mapSet m.conversations sid fileLines }

end ChatHistoryManager

/-- Sequentially insert a list of messages into one session. -/
def addAll (m : ChatHistoryManager) (sid : String) (msgs : List PyVal) :
    ChatHistoryManager :=
  msgs.foldl (fun acc msg => acc.add_message sid msg) m

/-! ## Claim C3 -/

/-- A pinned system message for the C3 scenario. -/
def sysMsgC3 : PyVal :=
  PyVal.dict [(PyVal.str "role", PyVal.str "system"),
    (PyVal.str "content", PyVal.str "be helpful")]

/-- One non-system message for the C3 scenario. -/
def userMsgC3 : PyVal :=
  PyVal.dict [(PyVal.str "role", PyVal.str "user"),
    (PyVal.str "content", PyVal.str "hi")]

/-- A store holding the pinned system message and a single user message. -/
def storeC3 : ChatHistoryManager :=
  ((emptyCHM 10).set_system_message "s" sysMsgC3).add_message "s" userMsgC3

/-! ## Claim C4 -/

/-- A store for the C4 witness: a pinned system record and one user
record. -/
def storeC4 : ChatHistoryManager :=
  ((emptyCHM 10).set_system_message "c4" sysMsgC3).add_message "c4" userMsgC3

/-! ## Claim C7 -/

/-- Eleven distinct non-system messages. -/
def msgsC7 : List PyVal :=
  (List.range 11).map (fun i =>
    PyVal.dict [(PyVal.str "role", PyVal.str "user"),
      (PyVal.str "content", PyVal.int i)])

/-! ## Tool Registry (src/core/tool_registry.py and
src/core/validation_utils.py) -/

/-- Membership `key in container` as `validate_tool_schema` uses it:
key membership on dicts, substring on strings (Python semantics of `in`;
never exercised by a conforming tool); any other operand would raise
`TypeError` in Python, which no claim exercises. -/
def pyContains (v : PyVal) (k : String) : Bool :=
  match v with
  | PyVal.dict es => (dictGet es k).isSome
  | PyVal.str s => decide (k.data <:+: s.data)
  | _ => false

/-- `isinstance(v, str)`. -/
def isStr : PyVal → Bool
  | PyVal.str _ => true
  | _ => false

/-- `isinstance(v, dict)`. -/
def isDict : PyVal → Bool
  | PyVal.dict _ => true
  | _ => false

/-- One iteration of the `required_fields` loop in `validate_tool_schema`
(src/core/validation_utils.py, lines 37-41): missing field or wrong
`isinstance` yields one error message. -/
def checkField (function : PyVal) (field : String) (isa : PyVal → Bool)
    (tyName : String) : List String :=
  match function.get field with
  | Option.none => ["Missing required field " ++ field]
  | some v =>
      if isa v then []
      else ["Field " ++ field ++ " has wrong type. Expected " ++ tyName]

/-- `validate_tool_schema` (src/core/validation_utils.py, lines 22-50).
The `required_fields` dict iterates in insertion order
(`name`, `description`, `parameters`); the `properties`/`required`
presence check runs whenever `parameters` is present, regardless of its
type.  Error strings are modelled without the quote characters of the
Python literals. -/
def validate_tool_schema (tool_info : PyVal) : List String :=
  match tool_info.get "function" with
  | Option.none => ["Missing top-level function key"]
  | some function =>
      let errs :=
        checkField function "name" isStr "str" ++
        checkField function "description" isStr "str" ++
        checkField function "parameters" isDict "dict"
      match function.get "parameters" with
      | some params =>
          errs ++
          (if pyContains params "properties" then []
           else ["Parameters object missing properties field"]) ++
          (if pyContains params "required" then []
           else ["Parameters object missing required field"])
      | Option.none => errs

/-- A tool as the registry sees it: `get_tool_info()` is data.  The
reflection check `analyze_tool_class` (lines 5-20 of validation_utils:
both required methods implemented) is satisfied by every value of this
type, which models exactly the interface-conforming tool classes. -/
structure PizzaAssistTool where
  info : PyVal

/-- The `_tools` map of a `ToolRegistry` (src/core/tool_registry.py,
line 19).  The `_validation_results` diagnostic map plays no part in any
claim and is omitted. -/
structure ToolRegistry where
  tools : String → Option PizzaAssistTool

/-- `ToolRegistry.__init__`. -/
def emptyRegistry : ToolRegistry := ⟨fun _ => Option.none⟩

/-- `ToolRegistry.register` (src/core/tool_registry.py, lines 54-79):
validate the schema and raise `ValueError` on errors; otherwise write the
binding unconditionally — `self._tools[name] = tool` performs no duplicate
check, silently replacing any existing binding for `name`.  The
`KeyError` arms are unreachable once validation has passed (the schema
then has a string-typed `function.name`). -/
def ToolRegistry.register (r : ToolRegistry) (tool : PizzaAssistTool) :
    Except String ToolRegistry :=
  let errors := validate_tool_schema tool.info
  if errors.isEmpty then
    match tool.info.get "function" with
    | some f =>
        match f.get "name" with
        | some (PyVal.str name) =>
            Except.ok ⟨mapSet r.tools name tool⟩
        | _ => Except.error "KeyError"
    | Option.none => Except.error "KeyError"
  else
    Except.error ("Invalid tool schema: " ++ String.intercalate "; " errors)

/-- The spec-side shape predicate for a valid registration schema: a
`function` object with string `name` and `description`, and a dict
`parameters` containing `properties` and `required`. -/
def hasValidShape (info : PyVal) : Bool :=
  match info.get "function" with
  | some f =>
      ((f.get "name").map isStr == some true) &&
      ((f.get "description").map isStr == some true) &&
      (match f.get "parameters" with
        | some params =>
            isDict params && pyContains params "properties" &&
            pyContains params "required"
        | Option.none => false)
  | Option.none => false

/-! ## Index Cache Manager (src/core/vector_store.py) -/

/-- What `os.stat` reports for one file, together with the bytes the file
holds.  `get_files_hash` reads only `st_mtime` and `st_size`; the content
field exists so that content-independence can be stated.  The modification
time is an abstract tick count and the size is not tied to the content
(no theorem needs the tie). -/
structure FileStat where
  mtime : Nat
  size : Nat
  content : List Nat
deriving DecidableEq

/-- A filesystem: path to stat, `Option.none` where `os.path.exists` is
false. -/
def FileSys : Type := String → Option FileStat

/-- The md5 hasher of `get_files_hash`: the digest is a deterministic
function of the byte sequence fed through `update`, modelled abstractly as
the concatenation of the fed chunks.  Only digest equality from equal
feeds is ever used; no theorem claims digest inequality. -/
def hexdigest (chunks : List String) : String := String.join chunks

/-- `get_files_hash` (src/core/vector_store.py, lines 98-114): an empty
path list gives `""`; otherwise the paths are sorted
(`sorted(file_paths)`), each existing path feeds `f"{st_mtime}:{st_size}"`
to the hasher, and a missing path (or a failing `stat`) is skipped.  The
file contents are never read. -/
def get_files_hash (fs : FileSys) (file_paths : List String) : String :=
  if file_paths.isEmpty then ""
  else
    hexdigest
      ((file_paths.insertionSort (fun a b => a ≤ b)).filterMap
        (fun p => (fs p).map
          (fun st => toString st.mtime ++ ":" ++ toString st.size)))

/-- One persisted metadata record (`save_store_metadata`, lines 116-138):
only the two fields the freshness comparison reads. -/
structure StoreMetadata where
  files_hash : String
  embedding_model : String
deriving DecidableEq

/-- The `needs_refresh` expression shared by `setup_document_store`
(lines 434-438) and `setup_memory_store` (lines 298-302).  A missing
metadata file makes `load_store_metadata` return `{}`, whose `.get(...)`
is `None` and never equals a present string. -/
def needs_refresh (force : Bool) (stored : Option StoreMetadata)
    (current_hash : String) (embedding_model : String) : Bool :=
  force ||
  !(decide (stored.map StoreMetadata.files_hash = some current_hash)) ||
  !(decide (stored.map StoreMetadata.embedding_model =
      some embedding_model))

/-- A retriever as callers observe one: the backing collection, the
documents that collection held when it was loaded or rebuilt, and the `k`
passed to `as_retriever`.  Every `Retriever` value is queryable; absence
is `Option.none`. -/
structure Retriever where
  collection : String
  contents : List String
  k : Nat
deriving DecidableEq

/-- `create_empty_memory_store` (lines 386-411): reset the
`memory_collection` and hand out a retriever over the now-empty
collection with `k = 3`.  The external-store exception fallback to `None`
is not modelled. -/
def create_empty_memory_store : Option Retriever :=
  some ⟨"memory_collection", [], 3⟩

/-- The shared tail of `setup_memory_store` (lines 294-384) once the
session file list is fixed: freshness check, load of the existing
collection when fresh, otherwise a rebuild from the session documents
(`load_session_documents`, supplied by the environment as `memoryDocs`),
falling back to the empty store when no documents parse.
`collection_exists` is whether the Chroma collection is present (its
absence forces `needs_refresh = True`, lines 313-316); `existingDocs` is
what the already-present collection holds.  External store failures are
not modelled. -/
def setup_memory_store_main (session_files : List String) (fs : FileSys)
    (stored : Option StoreMetadata) (embedding_model : String)
    (collection_exists : Bool) (existingDocs memoryDocs : List String)
    (force_refresh : Bool) : Option Retriever :=
  let current_files_hash := get_files_hash fs session_files
  let needs :=
    needs_refresh force_refresh stored current_files_hash embedding_model
  if !needs && collection_exists then
    some ⟨"memory_collection", existingDocs, 3⟩
  else if memoryDocs.isEmpty then create_empty_memory_store
  else some ⟨"memory_collection", memoryDocs, 3⟩

/-- `setup_memory_store` (lines 247-384).  `shared` is the
`SHARED_MEMORY_ENABLED` constant, imported by the module but not defined
in src/constants.py, so both configurations are covered; `historyFiles`
is the `.jsonl` listing of the history directory (shared mode), and in
isolated mode the single session file is looked up in the filesystem. -/
def setup_memory_store (shared : Bool) (history_dir : String)
    (historyFiles : List String) (fs : FileSys)
    (stored : Option StoreMetadata) (embedding_model : String)
    (collection_exists : Bool) (existingDocs memoryDocs : List String)
    (force_refresh : Bool) (session_id : Option String) :
    Option Retriever :=
  if shared then
    if historyFiles.isEmpty then create_empty_memory_store
    else
      setup_memory_store_main historyFiles fs stored embedding_model
        collection_exists existingDocs memoryDocs force_refresh
  else
    match session_id with
    | Option.none => Option.none
    | some sid =>
        let session_file := history_dir ++ "/" ++ sid ++ ".jsonl"
        if (fs session_file).isSome then
          setup_memory_store_main [session_file] fs stored embedding_model
            collection_exists existingDocs memoryDocs force_refresh
        else create_empty_memory_store

/-- `setup_document_store` (lines 413-531): `None` on an empty
`file_paths`, `None` when no listed file exists, freshness check over the
existing files, load of the existing collection when fresh, otherwise a
rebuild from `parse_files_to_documents` (supplied by the environment as
`parsedDocs`; `None` when nothing parses).  External store failures are
not modelled. -/
def setup_document_store (fs : FileSys) (file_paths : List String)
    (stored : Option StoreMetadata) (embedding_model : String)
    (collection_name : String) (collection_exists : Bool)
    (existingDocs parsedDocs : List String) (force_refresh : Bool) :
    Option Retriever :=
  if file_paths.isEmpty then Option.none
  else
    let existing_files := file_paths.filter (fun p => (fs p).isSome)
    if existing_files.isEmpty then Option.none
    else
      let current_files_hash := get_files_hash fs existing_files
      let needs :=
        needs_refresh force_refresh stored current_files_hash
          embedding_model
      if !needs && collection_exists then
        some ⟨collection_name, existingDocs, 5⟩
      else if parsedDocs.isEmpty then Option.none
      else some ⟨collection_name, parsedDocs, 5⟩

/-! ## Tool-Call Orchestrator: `run_agent` (src/core/agent.py) -/

/-- Outcome of invoking one registered tool callable with unpacked
arguments: a return value, a raised `TypeError` (argument mismatch, also
covering a non-dict argument object failing to unpack), or any other
exception. -/
inductive ToolOutcome where
  | success (ret : PyVal)
  | typeError (e : String)
  | failure (e : String)

/-- Outcome of the initial `client.chat` call (lines 104-164): a raised
exception, a response with no usable `message` key
(`not response_dict or "message" not in response_dict`), or
`response_dict["message"]`. -/
inductive InitialOutcome where
  | exn (e : String)
  | noMessage
  | message (msg : PyVal)

/-- Outcome of the final `client.chat` call (lines 399-522): a raised
exception, a falsy response (`if not final_response`), a falsy
`final_dict.get("message", ...)`, or the final message. -/
inductive FinalOutcome where
  | exn (e : String)
  | falsyResponse
  | emptyMessage
  | message (msg : PyVal)

/-- The environment of one `run_agent` turn: the two backend replies,
`AVAILABLE_FUNCTIONS`, and `json.loads` applied to string arguments
(`Option.none` models a `JSONDecodeError`). -/
structure AgentEnv where
  initial : InitialOutcome
  final : FinalOutcome
  functions : String → Option (PyVal → ToolOutcome)
  jsonLoads : String → Option PyVal

/-- One yielded event, reduced to the fields the claims inspect: the
`status` and `stage` strings and the `sequence` field, which two of the
yields (`tool_args` errors, lines 266 and 272) do not carry. -/
structure Event where
  status : String
  stage : String
  seq : Option Nat
deriving DecidableEq

/-- Mutable turn state: the memory plus a supply counter for `uuid4()`
and `datetime.now()` (the n-th draw yields `"u<n>"` or `"t<n>"`; no
claim inspects drawn values, only that drawing them consumes nothing from
the sequence counter). -/
structure AgentState where
  memory : ChatHistoryManager
  supply : Nat

/-- A `uuid4()` draw. -/
def drawId (st : AgentState) : AgentState × String :=
  ({ st with supply := st.supply + 1 }, "u" ++ toString st.supply)

/-- A `datetime.now().isoformat()` draw. -/
def drawTime (st : AgentState) : AgentState × String :=
  ({ st with supply := st.supply + 1 }, "t" ++ toString st.supply)

/-- `memory.next_sequence(session_id)` on the turn state. -/
def stepSeq (st : AgentState) (sid : String) : AgentState × Nat :=
  let r := st.memory.next_sequence sid
  ({ st with memory := r.1 }, r.2)

/-- `memory.add_message(session_id, msg)` on the turn state. -/
def stepAdd (st : AgentState) (sid : String) (msg : PyVal) : AgentState :=
  { st with memory := st.memory.add_message sid msg }

/-- The shape shared by the three paths that append a `role: system`
error message and yield one error event: initial-call exception
(lines 140-164), missing initial message (lines 114-138) and final-call
exception (lines 496-522).  Builds the error message (fresh id, current
parent, fresh sequence, fresh timestamp), appends it, and yields one
event at the given stage (which consumes one more sequence number; the
final-exception variant reuses the message id in the yield instead of a
fresh one — one fewer draw, not observable in this model). -/
def append_system_error (st : AgentState) (sid conversation_id
    user_input_id parent_id content stage : String) :
    AgentState × List Event :=
  let (st, mid) := drawId st
  let (st, mseq) := stepSeq st sid
  let (st, mtime) := drawTime st
  let st := stepAdd st sid (PyVal.dict
    [(PyVal.str "role", PyVal.str "system"),
     (PyVal.str "content", PyVal.str content),
     (PyVal.str "message_id", PyVal.str mid),
     (PyVal.str "parent_id", PyVal.str parent_id),
     (PyVal.str "conversation_id", PyVal.str conversation_id),
     (PyVal.str "user_input_id", PyVal.str user_input_id),
     (PyVal.str "sequence", PyVal.int mseq),
     (PyVal.str "timestamp", PyVal.str mtime)])
  let (st, _eventId) := drawId st
  let (st, eseq) := stepSeq st sid
  let (st, _etime) := drawTime st
  (st, [⟨"error", stage, some eseq⟩])

/-- The `role: tool` error appends that carry correlation fields and a
sequence (argument-mismatch, runtime failure and unknown function:
lines 312-339, 340-367 and 368-395), followed by the error event (one
more sequence number). -/
def append_tool_error (st : AgentState) (sid conversation_id
    user_input_id parent_id tool_call_id : String) (function_name : PyVal)
    (err stage : String) : AgentState × List Event :=
  let (st, mid) := drawId st
  let (st, mseq) := stepSeq st sid
  let st := stepAdd st sid (PyVal.dict
    [(PyVal.str "role", PyVal.str "tool"),
     (PyVal.str "tool_call_id", PyVal.str tool_call_id),
     (PyVal.str "name", function_name),
     (PyVal.str "content", PyVal.str (jsonDumps
       (PyVal.dict [(PyVal.str "error", PyVal.str err)]))),
     (PyVal.str "message_id", PyVal.str mid),
     (PyVal.str "parent_id", PyVal.str parent_id),
     (PyVal.str "conversation_id", PyVal.str conversation_id),
     (PyVal.str "user_input_id", PyVal.str user_input_id),
     (PyVal.str "sequence", PyVal.int mseq)])
  let (st, _eventId) := drawId st
  let (st, eseq) := stepSeq st sid
  let (st, _etime) := drawTime st
  (st, [⟨"error", stage, some eseq⟩])

/-- Dispatch of a parsed tool call (lines 278-395): record the attempt,
then execute when the name is registered.  A successful execution appends
the `role: tool` result message — which carries no `message_id`,
`parent_id` or `sequence` field (lines 289-294) — and yields a
`tool_result` success event; failures go through `append_tool_error`. -/
def execToolCall (env : AgentEnv) (sid conversation_id user_input_id
    parent_id tool_call_id : String) (st : AgentState)
    (function_name : PyVal) (args : PyVal) : AgentState × List Event :=
  let r := st.memory.record_function_attempt sid (pyStr function_name) args
  let st := { st with memory := r.1 }
  let lookup := match function_name with
    | PyVal.str s => env.functions s
    | _ => Option.none
  match lookup with
  | some f =>
      match f args with
      | ToolOutcome.success ret =>
          let retv := match ret with
            | PyVal.dict es => PyVal.str (jsonDumps (PyVal.dict es))
            | other => other
          let st := stepAdd st sid (PyVal.dict
            [(PyVal.str "role", PyVal.str "tool"),
             (PyVal.str "tool_call_id", PyVal.str tool_call_id),
             (PyVal.str "name", function_name),
             (PyVal.str "content", retv)])
          let (st, _eventId) := drawId st
          let (st, eseq) := stepSeq st sid
          let (st, _etime) := drawTime st
          (st, [⟨"success", "tool_result", some eseq⟩])
      | ToolOutcome.typeError e =>
          append_tool_error st sid conversation_id user_input_id parent_id
            tool_call_id function_name ("Argument mismatch: " ++ e)
            "tool_exec"
      | ToolOutcome.failure e =>
          append_tool_error st sid conversation_id user_input_id parent_id
            tool_call_id function_name ("Runtime error: " ++ e) "tool_exec"
  | Option.none =>
      append_tool_error st sid conversation_id user_input_id parent_id
        tool_call_id function_name
        ("Function " ++ pyStr function_name ++ " not implemented")
        "tool_missing"

/-- One iteration of the tool-call loop (lines 205-395): yield the
`tool_call` event first (one sequence number), then resolve.  An invalid
structure or unparseable arguments appends a bare `role: tool` error
record (no correlation fields, lines 233-238 and 265/271) and continues;
the two `tool_args` yields carry no sequence field. -/
def processToolCall (env : AgentEnv) (sid conversation_id user_input_id
    parent_id : String) (st : AgentState) (tc : PyVal) :
    AgentState × List Event :=
  let function_info := (tc.get "function").getD (PyVal.dict [])
  let function_name := function_info.get "name"
  let raw_args := function_info.get "arguments"
  let (st, tool_call_id) := drawId st
  let (st, _tool_call_msg_id) := drawId st
  let (st, cseq) := stepSeq st sid
  let (st, _ctime) := drawTime st
  let callEvent : Event := ⟨"success", "tool_call", some cseq⟩
  if !(pyTruthyOpt function_name) || isPyNone raw_args then
    -- lines 230-253: `if not function_name or raw_function_args is None`
    let nameVal :=
      if pyTruthyOpt function_name then function_name.getD PyVal.none
      else PyVal.str "unknown"
    let st := stepAdd st sid (PyVal.dict
      [(PyVal.str "role", PyVal.str "tool"),
       (PyVal.str "tool_call_id", PyVal.str tool_call_id),
       (PyVal.str "name", nameVal),
       (PyVal.str "content", PyVal.str (jsonDumps (PyVal.dict
         [(PyVal.str "error",
           PyVal.str "Invalid tool call structure")])))])
    let (st, _eventId) := drawId st
    let (st, eseq) := stepSeq st sid
    let (st, _etime) := drawTime st
    (st, [callEvent, ⟨"error", "tool_call", some eseq⟩])
  else
    match raw_args with
    | some (PyVal.dict es) =>
        let r := execToolCall env sid conversation_id user_input_id
          parent_id tool_call_id st (function_name.getD PyVal.none)
          (PyVal.dict es)
        (r.1, callEvent :: r.2)
    | some (PyVal.str s) =>
        match env.jsonLoads s with
        | some args =>
            let r := execToolCall env sid conversation_id user_input_id
              parent_id tool_call_id st (function_name.getD PyVal.none)
              args
            (r.1, callEvent :: r.2)
        | Option.none =>
            -- lines 262-267: JSONDecodeError
            let st := stepAdd st sid (PyVal.dict
              [(PyVal.str "role", PyVal.str "tool"),
               (PyVal.str "tool_call_id", PyVal.str tool_call_id),
               (PyVal.str "name", function_name.getD PyVal.none),
               (PyVal.str "content", PyVal.str (jsonDumps (PyVal.dict
                 [(PyVal.str "error",
                   PyVal.str ("Malformed JSON: " ++ s))])))])
            (st, [callEvent, ⟨"error", "tool_args", Option.none⟩])
    | some _other =>
        -- lines 268-273: unexpected argument type
        let st := stepAdd st sid (PyVal.dict
          [(PyVal.str "role", PyVal.str "tool"),
           (PyVal.str "tool_call_id", PyVal.str tool_call_id),
           (PyVal.str "name", function_name.getD PyVal.none),
           (PyVal.str "content", PyVal.str (jsonDumps (PyVal.dict
             [(PyVal.str "error", PyVal.str "Unexpected type for args")])))])
        (st, [callEvent, ⟨"error", "tool_args", Option.none⟩])
    | Option.none =>
        -- unreachable: `raw_function_args is None` was handled above
        (st, [callEvent])

/-- The tool-call loop (line 205): source order, accumulating events. -/
def processToolCalls (env : AgentEnv) (sid conversation_id user_input_id
    parent_id : String) (st : AgentState) (tcs : List PyVal) :
    AgentState × List Event :=
  tcs.foldl (fun acc tc =>
    let r := processToolCall env sid conversation_id user_input_id
      parent_id acc.1 tc
    (r.1, acc.2 ++ r.2)) (st, [])

/-- Step 6, the final `client.chat` call (lines 397-522).  A raised
exception appends a `role: system` error message; a falsy response or a
falsy `message` yields an error event and appends nothing.  A message
whose `content` is not `None` (any other value, the empty string
included) is appended and yields a `success` event; `content = None`
yields an event with status `"error"` (line 484) — the `warning` level
exists only on the log line — and appends nothing. -/
def finalPhase (env : AgentEnv) (sid conversation_id user_input_id
    parent_id : String) (st : AgentState) (evs : List Event) :
    AgentState × List Event :=
  match env.final with
  | FinalOutcome.exn e =>
      let r := append_system_error st sid conversation_id user_input_id
        parent_id ("Final response error: " ++ e) "final_response"
      (r.1, evs ++ r.2)
  | FinalOutcome.falsyResponse =>
      let (st, _eventId) := drawId st
      let (st, eseq) := stepSeq st sid
      let (st, _etime) := drawTime st
      (st, evs ++ [⟨"error", "final_response", some eseq⟩])
  | FinalOutcome.emptyMessage =>
      let (st, _eventId) := drawId st
      let (st, eseq) := stepSeq st sid
      let (st, _etime) := drawTime st
      (st, evs ++ [⟨"error", "final_response", some eseq⟩])
  | FinalOutcome.message raw =>
      let (st, fmid) := drawId st
      let msg := raw.set "message_id" (PyVal.str fmid)
      let msg := msg.set "parent_id" (PyVal.str parent_id)
      let msg := msg.set "conversation_id" (PyVal.str conversation_id)
      let msg := msg.set "user_input_id" (PyVal.str user_input_id)
      let (st, fseq) := stepSeq st sid
      let msg := msg.set "sequence" (PyVal.int fseq)
      let (st, ftime) := drawTime st
      let msg := msg.set "timestamp" (PyVal.str ftime)
      let content := msg.get "content"
      if !(isPyNone content) then
        let st := stepAdd st sid msg
        let (st, eseq) := stepSeq st sid
        let (st, _etime) := drawTime st
        (st, evs ++ [⟨"success", "final_response", some eseq⟩])
      else
        let (st, _eventId) := drawId st
        let (st, eseq) := stepSeq st sid
        let (st, _etime) := drawTime st
        (st, evs ++ [⟨"error", "final_response", some eseq⟩])

/-- Processing of a usable initial message (lines 166-395 and on to the
final phase): attach correlation fields and a fresh sequence, default the
missing `role` to `assistant`, append; plain content with no tool calls
ends the turn with a `success` event at `initial_response`; otherwise the
tool-call list (empty when `tool_calls` is falsy or not a list) is
dispatched and the final phase runs. -/
def runWithInitialMessage (env : AgentEnv) (sid conversation_id
    user_input_id parent_id : String) (st : AgentState) (msg0 : PyVal) :
    AgentState × List Event :=
  let (st, mid) := drawId st
  let msg := msg0.set "message_id" (PyVal.str mid)
  let msg := msg.set "parent_id" (PyVal.str parent_id)
  let msg := msg.set "conversation_id" (PyVal.str conversation_id)
  let msg := msg.set "user_input_id" (PyVal.str user_input_id)
  let (st, mseq) := stepSeq st sid
  let msg := msg.set "sequence" (PyVal.int mseq)
  let (st, mtime) := drawTime st
  let msg := msg.set "timestamp" (PyVal.str mtime)
  let parent_id := mid
  let msg := match msg.get "role" with
    | Option.none => msg.set "role" (PyVal.str "assistant")
    | some _ => msg
  let st := stepAdd st sid msg
  if pyTruthyOpt (msg.get "content") &&
      !(pyTruthyOpt (msg.get "tool_calls")) then
    let (st, _eventId) := drawId st
    let (st, eseq) := stepSeq st sid
    let (st, _etime) := drawTime st
    (st, [⟨"success", "initial_response", some eseq⟩])
  else
    let r :=
      if pyTruthyOpt (msg.get "tool_calls") then
        let tcs := match msg.get "tool_calls" with
          | some (PyVal.list xs) => xs
          | _ => []
        processToolCalls env sid conversation_id user_input_id parent_id
          st tcs
      else (st, [])
    finalPhase env sid conversation_id user_input_id parent_id r.1 r.2

/-- Steps 1-2 of the turn (src/core/agent.py lines 51-94): generate the
missing correlation ids, insert a configured non-empty system prompt when
the session is empty (lines 68-79), and append the user utterance.
Returns the state together with the conversation id, the user-input id
and the new parent id (the user message id). -/
def ingest (memory0 : ChatHistoryManager) (session_id user_input : String)
    (system_message : Option String) (user_input_id0 parent_id0
    conversation_id0 : Option String) :
    AgentState × String × String × String :=
  let st : AgentState := ⟨memory0, 0⟩
  let (st, user_input_id) := match user_input_id0 with
    | some u => (st, u)
    | Option.none => drawId st
  let (st, conversation_id) := match conversation_id0 with
    | some c => (st, c)
    | Option.none => drawId st
  let recent := st.memory.get_recent_messages session_id Option.none
  let (st, parent_id) :=
    match system_message with
    | some sm =>
        if sm.isEmpty then (st, parent_id0)
        else if recent.isEmpty then
          let (st, system_msg_id) := drawId st
          let (st, sseq) := stepSeq st session_id
          let (st, stime) := drawTime st
          let st := stepAdd st session_id (PyVal.dict
            [(PyVal.str "role", PyVal.str "system"),
             (PyVal.str "content", PyVal.str sm),
             (PyVal.str "message_id", PyVal.str system_msg_id),
             (PyVal.str "conversation_id", PyVal.str conversation_id),
             (PyVal.str "sequence", PyVal.int sseq),
             (PyVal.str "timestamp", PyVal.str stime)])
          (st, some system_msg_id)
        else (st, parent_id0)
    | Option.none => (st, parent_id0)
  let (st, user_msg_id) := drawId st
  let (st, useq) := stepSeq st session_id
  let (st, utime) := drawTime st
  let user_message := PyVal.dict
    [(PyVal.str "role", PyVal.str "user"),
     (PyVal.str "content", PyVal.str user_input),
     (PyVal.str "message_id", PyVal.str user_msg_id),
     (PyVal.str "parent_id", optStr parent_id),
     (PyVal.str "conversation_id", PyVal.str conversation_id),
     (PyVal.str "user_input_id", PyVal.str user_input_id),
     (PyVal.str "sequence", PyVal.int useq),
     (PyVal.str "timestamp", PyVal.str utime)]
  let st := stepAdd st session_id user_message
  (st, conversation_id, user_input_id, user_msg_id)

/-- `run_agent` (src/core/agent.py, lines 25-522) for a caller-supplied
session id: ingest, then follow the initial backend outcome. -/
def run_agent (env : AgentEnv) (user_input : String)
    (memory0 : ChatHistoryManager) (session_id : String)
    (system_message : Option String) (user_input_id0 parent_id0
    conversation_id0 : Option String) : AgentState × List Event :=
  let r := ingest memory0 session_id user_input system_message
    user_input_id0 parent_id0 conversation_id0
  let st := r.1
  let conversation_id := r.2.1
  let user_input_id := r.2.2.1
  let parent_id := r.2.2.2
  match env.initial with
  | InitialOutcome.exn e =>
      append_system_error st session_id conversation_id user_input_id
        parent_id ("Error contacting LLM: " ++ e) "initial_call"
  | InitialOutcome.noMessage =>
      append_system_error st session_id conversation_id user_input_id
        parent_id "No response from LLM." "initial_response"
  | InitialOutcome.message msg0 =>
      runWithInitialMessage env session_id conversation_id user_input_id
        parent_id st msg0

/-! ## Claim-shape predicates and concrete fixtures -/

/-- The `sequence` field of a stored message. -/
def seqField (v : PyVal) : Option PyVal := v.get "sequence"

/-- Continuation of `seqsStrictNoGaps` below a known previous value. -/
def seqsFrom (a : Int) : List PyVal → Bool
  | [] => true
  | mv :: rest =>
      match mv.get "sequence" with
      | some (PyVal.int b) => decide (b = a + 1) && seqsFrom b rest
      | _ => false

/-- The C1 claim as a predicate on one stored history: every message
carries an integer `sequence`, and consecutive messages increase by
exactly one (strictly increasing with no gaps). -/
def seqsStrictNoGaps (hist : List PyVal) : Bool :=
  match hist with
  | [] => true
  | mv :: rest =>
      match mv.get "sequence" with
      | some (PyVal.int a) => seqsFrom a rest
      | _ => false

/-- The values returned by `k` successive `next_sequence` calls. -/
def nextSeqRun (m : ChatHistoryManager) (sid : String) : Nat → List Nat
  | 0 => []
  | k + 1 =>
      let r := m.next_sequence sid
      r.2 :: nextSeqRun r.1 sid k

/-- A registered tool that always succeeds. -/
def orderToolFn : PyVal → ToolOutcome :=
  fun _ => ToolOutcome.success (PyVal.str "order placed")

/-- C1 scenario: the backend requests one tool call with structured
arguments to a registered tool that succeeds, then replies with content. -/
def envC1 : AgentEnv :=
  ⟨InitialOutcome.message (PyVal.dict
      [(PyVal.str "role", PyVal.str "assistant"),
       (PyVal.str "content", PyVal.str ""),
       (PyVal.str "tool_calls", PyVal.list
         [PyVal.dict [(PyVal.str "function", PyVal.dict
            [(PyVal.str "name", PyVal.str "place_pizza_order"),
             (PyVal.str "arguments", PyVal.dict [])])]])]),
   FinalOutcome.message (PyVal.dict
      [(PyVal.str "role", PyVal.str "assistant"),
       (PyVal.str "content", PyVal.str "Your order is placed.")]),
   fun n => if n = "place_pizza_order" then some orderToolFn
     else Option.none,
   fun _ => Option.none⟩

def runC1 : AgentState × List Event :=
  run_agent envC1 "order a pizza" defaultCHM "s1" Option.none Option.none
    Option.none Option.none

/-- C2 scenario: the initial backend call raises. -/
def envC2 : AgentEnv :=
  ⟨InitialOutcome.exn "connection refused", FinalOutcome.falsyResponse,
   fun _ => Option.none, fun _ => Option.none⟩

def runC2 : AgentState × List Event :=
  run_agent envC2 "hello" defaultCHM "s2" Option.none Option.none
    Option.none Option.none

/-- An initial assistant reply with empty content and no tool calls: the
turn proceeds to the final call without dispatching tools. -/
def assistantEmptyMsg : PyVal :=
  PyVal.dict [(PyVal.str "role", PyVal.str "assistant"),
    (PyVal.str "content", PyVal.str "")]

/-- C5 scenario: the final message has `content = None`. -/
def envC5 : AgentEnv :=
  ⟨InitialOutcome.message assistantEmptyMsg,
   FinalOutcome.message (PyVal.dict
      [(PyVal.str "role", PyVal.str "assistant"),
       (PyVal.str "content", PyVal.none)]),
   fun _ => Option.none, fun _ => Option.none⟩

def runC5 : AgentState × List Event :=
  run_agent envC5 "hi" defaultCHM "s5" Option.none Option.none
    Option.none Option.none

/-- A well-formed `parameters` object. -/
def validParams : PyVal :=
  PyVal.dict [(PyVal.str "properties", PyVal.dict []),
    (PyVal.str "required", PyVal.list [])]

/-- The `function` object of the first registered tool. -/
def toolFnA : PyVal :=
  PyVal.dict [(PyVal.str "name", PyVal.str "place_pizza_order"),
    (PyVal.str "description", PyVal.str "place an order"),
    (PyVal.str "parameters", validParams)]

/-- A second tool carrying the same name and a different description. -/
def toolFnB : PyVal :=
  PyVal.dict [(PyVal.str "name", PyVal.str "place_pizza_order"),
    (PyVal.str "description", PyVal.str "place an order, v2"),
    (PyVal.str "parameters", validParams)]

def toolA : PizzaAssistTool := ⟨PyVal.dict [(PyVal.str "function", toolFnA)]⟩

def toolB : PizzaAssistTool := ⟨PyVal.dict [(PyVal.str "function", toolFnB)]⟩

/-- Did a registration succeed? -/
def exceptOk (e : Except String ToolRegistry) : Bool :=
  match e with
  | Except.ok _ => true
  | Except.error _ => false

/-- The registry a successful registration produced. -/
def okReg (e : Except String ToolRegistry) : ToolRegistry :=
  match e with
  | Except.ok r => r
  | Except.error _ => emptyRegistry

def regWithA : ToolRegistry := okReg (emptyRegistry.register toolA)

/-- C9 witness scenario, first build: two files with identical size and
modification time. -/
def fsSwapA : FileSys := fun p =>
  if p = "menu.txt" then some ⟨100, 5, [1, 2, 3, 4, 5]⟩
  else if p = "orders.txt" then some ⟨100, 5, [6, 7, 8, 9, 10]⟩
  else Option.none

/-- C9 witness scenario, second build: the two contents swapped, stats
unchanged. -/
def fsSwapB : FileSys := fun p =>
  if p = "menu.txt" then some ⟨100, 5, [6, 7, 8, 9, 10]⟩
  else if p = "orders.txt" then some ⟨100, 5, [1, 2, 3, 4, 5]⟩
  else Option.none

/-- The user message `ingest` builds, as a function of the drawn ids and
the sequence value. -/
def userMsgP (user_input mid : String) (parent : PyVal)
    (cid uiid : String) (seqv : Nat) (ts : String) : PyVal :=
  PyVal.dict
    [(PyVal.str "role", PyVal.str "user"),
     (PyVal.str "content", PyVal.str user_input),
     (PyVal.str "message_id", PyVal.str mid),
     (PyVal.str "parent_id", parent),
     (PyVal.str "conversation_id", PyVal.str cid),
     (PyVal.str "user_input_id", PyVal.str uiid),
     (PyVal.str "sequence", PyVal.int seqv),
     (PyVal.str "timestamp", PyVal.str ts)]

/-- The `role: system` error message `append_system_error` builds, as a
function of the drawn ids and the sequence value. -/
def sysErrMsg (content mid pid cid uiid : String) (seqv : Nat)
    (ts : String) : PyVal :=
  PyVal.dict
    [(PyVal.str "role", PyVal.str "system"),
     (PyVal.str "content", PyVal.str content),
     (PyVal.str "message_id", PyVal.str mid),
     (PyVal.str "parent_id", PyVal.str pid),
     (PyVal.str "conversation_id", PyVal.str cid),
     (PyVal.str "user_input_id", PyVal.str uiid),
     (PyVal.str "sequence", PyVal.int seqv),
     (PyVal.str "timestamp", PyVal.str ts)]

/-- The assistant message after `runWithInitialMessage` has attached the
correlation fields to an initial reply with empty content. -/
def assistantSetMsg (mid pid cid uiid : String) (seqv : Nat)
    (ts : String) : PyVal :=
  PyVal.dict
    [(PyVal.str "role", PyVal.str "assistant"),
     (PyVal.str "content", PyVal.str ""),
     (PyVal.str "message_id", PyVal.str mid),
     (PyVal.str "parent_id", PyVal.str pid),
     (PyVal.str "conversation_id", PyVal.str cid),
     (PyVal.str "user_input_id", PyVal.str uiid),
     (PyVal.str "sequence", PyVal.int seqv),
     (PyVal.str "timestamp", PyVal.str ts)]

/-- The final message after `finalPhase` has attached the correlation
fields to a reply with string content `c`. -/
def finalSetMsg (c mid pid cid uiid : String) (seqv : Nat)
    (ts : String) : PyVal :=
  PyVal.dict
    [(PyVal.str "role", PyVal.str "assistant"),
     (PyVal.str "content", PyVal.str c),
     (PyVal.str "message_id", PyVal.str mid),
     (PyVal.str "parent_id", PyVal.str pid),
     (PyVal.str "conversation_id", PyVal.str cid),
     (PyVal.str "user_input_id", PyVal.str uiid),
     (PyVal.str "sequence", PyVal.int seqv),
     (PyVal.str "timestamp", PyVal.str ts)]

open ChatHistoryManager

mutual

theorem make_serializable_canonical :
    ∀ v : PyVal, isCanonical (make_serializable v) = true
  | PyVal.none => rfl
  | PyVal.bool _ => rfl
  | PyVal.int _ => rfl
  | PyVal.float _ => rfl
  | PyVal.str _ => rfl
  | PyVal.list xs => by
      simp only [make_serializable, isCanonical]
      exact msList_canonical xs
  | PyVal.tuple xs => by
      simp only [make_serializable, isCanonical]
      exact msList_canonical xs
  | PyVal.dict es => by
      simp only [make_serializable, isCanonical]
      exact msEntries_canonical es
  | PyVal.obj _ => rfl

theorem msList_canonical :
    ∀ xs : List PyVal, isCanonicalList (msList xs) = true
  | [] => rfl
  | x :: xs => by
      simp only [msList, isCanonicalList, Bool.and_eq_true]
      exact ⟨make_serializable_canonical x, msList_canonical xs⟩

theorem msEntries_canonical :
    ∀ es : List (PyVal × PyVal), isCanonicalEntries (msEntries es) = true
  | [] => rfl
  | (k, v) :: es => by
      simp only [msEntries, isCanonicalEntries, Bool.and_eq_true]
      exact ⟨⟨trivial, make_serializable_canonical v⟩, msEntries_canonical es⟩

end

mutual

theorem make_serializable_of_canonical :
    ∀ v : PyVal, isCanonical v = true → make_serializable v = v
  | PyVal.none, _ => rfl
  | PyVal.bool _, _ => rfl
  | PyVal.int _, _ => rfl
  | PyVal.float _, _ => rfl
  | PyVal.str _, _ => rfl
  | PyVal.list xs, h => by
      simp only [isCanonical] at h
      simp only [make_serializable, msList_of_canonical xs h]
  | PyVal.dict es, h => by
      simp only [isCanonical] at h
      simp only [make_serializable, msEntries_of_canonical es h]

theorem msList_of_canonical :
    ∀ xs : List PyVal, isCanonicalList xs = true → msList xs = xs
  | [], _ => rfl
  | x :: xs, h => by
      simp only [isCanonicalList, Bool.and_eq_true] at h
      simp only [msList, make_serializable_of_canonical x h.1,
        msList_of_canonical xs h.2]

theorem msEntries_of_canonical :
    ∀ es : List (PyVal × PyVal), isCanonicalEntries es = true →
      msEntries es = es
  | [], _ => rfl
  | (k, v) :: es, h => by
      simp only [isCanonicalEntries, Bool.and_eq_true] at h
      obtain ⟨⟨hk, hv⟩, hes⟩ := h
      match k, hk with
      | PyVal.str s, _ =>
          simp only [msEntries, pyStr, make_serializable_of_canonical v hv,
            msEntries_of_canonical es hes]

end

/-! ## Basic lemmas about the session store -/

theorem mapSet_same (f : String → Option α) (k : String) (v : α) :
    mapSet f k v k = some v := by
  simp [mapSet]

theorem rtake_of_length_le (l : List α) (n : Nat) (h : l.length ≤ n) :
    l.rtake n = l := by
  simp only [List.rtake, Nat.sub_eq_zero_of_le h, List.drop_zero]

theorem length_rtake_le (l : List α) (n : Nat) : (l.rtake n).length ≤ n := by
  simp only [List.rtake, List.length_drop]
  omega

theorem rtake_append_rtake (l z : List α) (n : Nat) :
    (l.rtake n ++ z).rtake n = (l ++ z).rtake n := by
  simp only [List.rtake_eq_reverse_take_reverse, List.reverse_append,
    List.reverse_reverse]
  rw [List.take_append_eq_append_take, List.take_append_eq_append_take,
    List.take_take, Nat.min_eq_left (Nat.sub_le n _)]

namespace ChatHistoryManager

theorem ensure_session_max (m : ChatHistoryManager) (sid : String) :
    (m.ensure_session sid).max_history = m.max_history := rfl

theorem ensure_session_system (m : ChatHistoryManager) (sid : String) :
    (m.ensure_session sid).system_messages = m.system_messages := rfl

theorem ensure_session_conversations (m : ChatHistoryManager)
    (sid : String) :
    (m.ensure_session sid).conversations sid =
      some ((m.conversations sid).getD []) := by
  simp [ensure_session, mapSet]

theorem ensure_session_counter (m : ChatHistoryManager) (sid : String) :
    (m.ensure_session sid).sequence_counters sid =
      some ((m.sequence_counters sid).getD 0) := by
  simp [ensure_session, mapSet]

theorem add_message_max (m : ChatHistoryManager) (sid : String)
    (msg : PyVal) :
    (m.add_message sid msg).max_history = m.max_history := by
  unfold add_message
  exact ensure_session_max m sid

theorem add_message_system (m : ChatHistoryManager) (sid : String)
    (msg : PyVal) :
    (m.add_message sid msg).system_messages = m.system_messages := by
  unfold add_message
  exact ensure_session_system m sid

theorem add_message_counter (m : ChatHistoryManager) (sid : String)
    (msg : PyVal) :
    (m.add_message sid msg).sequence_counters sid =
      some ((m.sequence_counters sid).getD 0) := by
  unfold add_message
  exact ensure_session_counter m sid

/-- The stored history after `add_message` into a session with no pinned
system message. -/
theorem add_message_conversations_no_system (m : ChatHistoryManager)
    (sid : String) (msg : PyVal)
    (hsys : m.system_messages sid = Option.none) :
    (m.add_message sid msg).conversations sid =
      some (let ns := (m.conversations sid).getD [] ++ [make_serializable msg]
            if m.max_history < ns.length then pyTail m.max_history ns
            else ns) := by
  simp only [add_message, ensure_session_conversations, ensure_session_system,
    ensure_session_max, hsys, Option.isSome_none, Bool.false_eq_true,
    if_false, Option.getD_some, mapSet_same]

/-- The stored history after `add_message` when `max_history ≥ 1` and no
system message is pinned: exactly the last `max_history` entries of the
old history extended by the serialized message. -/
theorem add_message_rtake (m : ChatHistoryManager) (sid : String)
    (msg : PyVal) (hsys : m.system_messages sid = Option.none)
    (hk : 1 ≤ m.max_history) :
    (m.add_message sid msg).conversations sid =
      some (((m.conversations sid).getD [] ++
        [make_serializable msg]).rtake m.max_history) := by
  rw [add_message_conversations_no_system m sid msg hsys]
  simp only []
  split
  · rw [pyTail, if_neg (by omega)]
  · rw [rtake_of_length_le _ _ (by omega)]

/-- Folding `add_message` over a message list keeps, of the concatenated
serialized stream, exactly the last `max_history` entries (for a session
with no pinned system message and a positive retention limit). -/
theorem addAll_rtake (sid : String) (msgs : List PyVal) :
    ∀ (m : ChatHistoryManager) (cur : List PyVal),
      m.system_messages sid = Option.none →
      (m.conversations sid).getD [] = cur →
      cur.length ≤ m.max_history → 1 ≤ m.max_history →
      ((addAll m sid msgs).conversations sid).getD [] =
        (cur ++ msgs.map make_serializable).rtake m.max_history ∧
      (addAll m sid msgs).max_history = m.max_history := by
  induction msgs with
  | nil =>
      intro m cur hsys hcur hlen hk
      constructor
      · simp only [addAll, List.foldl_nil, List.map_nil, List.append_nil,
          hcur, rtake_of_length_le cur m.max_history hlen]
      · rfl
  | cons x xs ih =>
      intro m cur hsys hcur hlen hk
      have hstep := add_message_rtake m sid x hsys hk
      have hmax := add_message_max m sid x
      have hsys2 : (m.add_message sid x).system_messages sid = Option.none :=
        by rw [add_message_system]; exact hsys
      have hcur2 : ((m.add_message sid x).conversations sid).getD [] =
          (cur ++ [make_serializable x]).rtake m.max_history := by
        rw [hstep, hcur]; rfl
      have hlen2 : ((cur ++ [make_serializable x]).rtake
          m.max_history).length ≤ (m.add_message sid x).max_history := by
        rw [hmax]; exact length_rtake_le _ _
      have hk2 : 1 ≤ (m.add_message sid x).max_history := by rw [hmax]; exact hk
      have := ih (m.add_message sid x)
        ((cur ++ [make_serializable x]).rtake m.max_history) hsys2 hcur2
        hlen2 hk2
      rw [addAll, List.foldl_cons] at *
      refine ⟨?_, ?_⟩
      · rw [this.1, hmax, rtake_append_rtake]
        congr 1
        simp
      · rw [this.2, hmax]

end ChatHistoryManager

namespace ChatHistoryManager

theorem next_sequence_val (m : ChatHistoryManager) (sid : String) :
    (m.next_sequence sid).2 = (m.sequence_counters sid).getD 0 + 1 := by
  simp [next_sequence, ensure_session_counter]

theorem next_sequence_counter (m : ChatHistoryManager) (sid : String) :
    (m.next_sequence sid).1.sequence_counters sid =
      some ((m.sequence_counters sid).getD 0 + 1) := by
  simp [next_sequence, ensure_session_counter, mapSet]

theorem next_sequence_conversations (m : ChatHistoryManager)
    (sid : String) :
    (m.next_sequence sid).1.conversations sid =
      some ((m.conversations sid).getD []) := by
  simp [next_sequence, ensure_session_conversations]

theorem next_sequence_system (m : ChatHistoryManager) (sid : String) :
    (m.next_sequence sid).1.system_messages = m.system_messages := rfl

theorem next_sequence_max (m : ChatHistoryManager) (sid : String) :
    (m.next_sequence sid).1.max_history = m.max_history := rfl

/-- `add_message` without trimming: when the history has room, the
serialized message is appended at the end. -/
theorem add_message_append (m : ChatHistoryManager) (sid : String)
    (msg : PyVal) (cur : List PyVal)
    (hsys : m.system_messages sid = Option.none)
    (hcur : (m.conversations sid).getD [] = cur)
    (hlen : cur.length + 1 ≤ m.max_history) :
    (m.add_message sid msg).conversations sid =
      some (cur ++ [make_serializable msg]) := by
  rw [add_message_conversations_no_system m sid msg hsys, hcur]
  simp only [Option.some.injEq]
  rw [if_neg (by simp only [List.length_append, List.length_cons,
    List.length_nil]; omega)]

theorem get_recent_none (m : ChatHistoryManager) (sid : String) :
    m.get_recent_messages sid Option.none =
      (m.conversations sid).getD [] := by
  simp [get_recent_messages, ensure_session_conversations]

end ChatHistoryManager

theorem map_make_serializable_of_canonical (xs : List PyVal)
    (h : isCanonicalList xs = true) : xs.map make_serializable = xs := by
  induction xs with
  | nil => rfl
  | cons x xs ih =>
      simp only [isCanonicalList, Bool.and_eq_true] at h
      simp [make_serializable_of_canonical x h.1, ih h.2]

/-! ## Claim C10 -/

/-- C10: `make_serializable` is total and idempotent: for every input it
returns a value built only from `None`, booleans, numbers, strings, lists
and string-keyed dicts (tuples become lists, and any other object is
flattened to its string representation, never kept as an opaque handle),
and applying `make_serializable` to its own output returns that output
unchanged. -/
theorem claim10_make_serializable_total_idempotent (v : PyVal) :
    isCanonical (make_serializable v) = true ∧
    make_serializable (make_serializable v) = make_serializable v :=
  ⟨make_serializable_canonical v,
   make_serializable_of_canonical _ (make_serializable_canonical v)⟩

/-- C3: counterexample.  With a pinned system message and exactly one
non-system message, `get_recent_messages(s, 2)` returns the system message
twice: the slice `messages[-count:]` (src/core/memory.py, line 133) counts
from the end of the full stored history, so it reaches back into the
pinned head whenever `count` exceeds the number of non-system messages.
The claim predicts the system message followed by `min(2, 1) = 1`
non-system message, with no duplication. -/
theorem claim3_counterexample :
    get_recent_messages storeC3 "s" (some 2) =
      [sysMsgC3, sysMsgC3, userMsgC3] ∧
    get_recent_messages storeC3 "s" (some 2) ≠ [sysMsgC3, userMsgC3] := by
  refine ⟨rfl, ?_⟩
  intro h
  rw [show get_recent_messages storeC3 "s" (some 2) =
    [sysMsgC3, sysMsgC3, userMsgC3] from rfl] at h
  have hlen := congrArg List.length h
  simp at hlen

/-- C3 (amended): the claimed description of `get_recent_messages` holds
only when `1 ≤ n` and `n` does not exceed the number of non-system
messages.  In that range the result is the pinned system message (if one
is set) followed by exactly the last `n` non-system messages, and without
a pinned system message it is the last `min(n, length)` messages; outside
the range the pinned head is duplicated (see the counterexample), and
`n = 0` returns the whole history because `messages[-0:]` is the full
slice. -/
theorem claim3_amended (m : ChatHistoryManager) (sid : String) (n : Nat)
    (h1 : 1 ≤ n) :
    ((m.system_messages sid).isSome = true →
      n + 1 ≤ ((m.conversations sid).getD []).length →
      m.get_recent_messages sid (some n) =
        ((m.conversations sid).getD []).take 1 ++
          (((m.conversations sid).getD []).drop 1).drop
            ((((m.conversations sid).getD []).drop 1).length - n)) ∧
    ((m.system_messages sid).isSome = false →
      m.get_recent_messages sid (some n) =
        ((m.conversations sid).getD []).drop
          (((m.conversations sid).getD []).length - n)) := by
  have hconv : ((m.ensure_session sid).conversations sid).getD [] =
      (m.conversations sid).getD [] := by
    rw [ensure_session_conversations]
    rfl
  constructor
  · intro hsys hlen
    simp only [get_recent_messages, hconv, hsys, if_true, pyTail,
      if_neg (by omega : ¬ n = 0), List.rtake, List.drop_drop,
      List.length_drop]
    congr 2
    omega
  · intro hsys
    simp only [get_recent_messages, hconv, hsys, Bool.false_eq_true,
      if_false, pyTail, if_neg (by omega : ¬ n = 0), List.rtake]

theorem claim3_amended_witness :
    get_recent_messages storeC3 "s" (some 1) =
      ((storeC3.conversations "s").getD []).take 1 ++
        (((storeC3.conversations "s").getD []).drop 1).drop
          ((((storeC3.conversations "s").getD []).drop 1).length - 1) :=
  (claim3_amended storeC3 "s" 1 (by decide)).1 (by rfl) (by decide)

/-- C4: round-trip.  For a session whose stored history consists of
canonical (JSON-serializable) messages, `save_history` followed by
`load_history` on a fresh store reproduces the identical ordered history,
and when the first record has `role = "system"` it is restored as the
pinned system message. -/
theorem claim4_round_trip (m : ChatHistoryManager) (sid : String) (k : Nat)
    (msgs : List PyVal) (hconv : m.conversations sid = some msgs)
    (hcanon : isCanonicalList msgs = true) :
    m.save_history sid = some msgs ∧
    ((emptyCHM k).load_history sid
        ((m.save_history sid).getD [])).conversations sid = some msgs ∧
    ((emptyCHM k).load_history sid
        ((m.save_history sid).getD [])).get_recent_messages sid Option.none
      = msgs ∧
    (∀ first rest, msgs = first :: rest →
      first.get "role" = some (PyVal.str "system") →
      ((emptyCHM k).load_history sid
          ((m.save_history sid).getD [])).system_messages sid =
        some first) := by
  have hsave : m.save_history sid = some msgs := by
    simp [save_history, hconv, map_make_serializable_of_canonical msgs hcanon]
  have hfile : (m.save_history sid).getD [] = msgs := by rw [hsave]; rfl
  have hloadconv :
      ((emptyCHM k).load_history sid msgs).conversations sid = some msgs := by
    unfold load_history
    cases hm : msgs.head? with
    | none => simp [mapSet]
    | some first =>
        cases hr : first.get "role" with
        | none => simp [hr, mapSet]
        | some rv =>
            cases rv with
            | str s =>
                by_cases hs : s = "system"
                · simp [hr, hs, mapSet]
                · simp [hr, hs, mapSet]
            | none => simp [hr, mapSet]
            | bool b => simp [hr, mapSet]
            | int n => simp [hr, mapSet]
            | float r => simp [hr, mapSet]
            | list xs => simp [hr, mapSet]
            | tuple xs => simp [hr, mapSet]
            | dict es => simp [hr, mapSet]
            | obj r => simp [hr, mapSet]
  refine ⟨hsave, by rw [hfile]; exact hloadconv, ?_, ?_⟩
  · rw [hfile]
    simp only [get_recent_messages, ensure_session_conversations, hloadconv]
    rfl
  · intro first rest hmsgs hrole
    rw [hfile]
    unfold load_history
    rw [hmsgs]
    simp [hrole, mapSet]

theorem claim4_round_trip_witness :
    storeC4.save_history "c4" = some [sysMsgC3, userMsgC3] ∧
    ((emptyCHM 10).load_history "c4"
        ((storeC4.save_history "c4").getD [])).conversations "c4" =
      some [sysMsgC3, userMsgC3] ∧
    ((emptyCHM 10).load_history "c4"
        ((storeC4.save_history "c4").getD [])).get_recent_messages "c4"
        Option.none = [sysMsgC3, userMsgC3] ∧
    (∀ first rest, [sysMsgC3, userMsgC3] = first :: rest →
      first.get "role" = some (PyVal.str "system") →
      ((emptyCHM 10).load_history "c4"
          ((storeC4.save_history "c4").getD [])).system_messages "c4" =
        some first) :=
  claim4_round_trip storeC4 "c4" 10 [sysMsgC3, userMsgC3] rfl (by decide)

/-- C7: counterexample.  The `__init__` default for `max_history` is `10`
(src/core/memory.py, line 26), not `15`: a default-constructed store keeps
only the last `10` of eleven inserted messages, whereas truncation to the
last `15` would keep all `min(11, 15) = 11`. -/
theorem claim7_counterexample :
    defaultCHM.max_history ≠ 15 ∧
    (get_recent_messages (addAll defaultCHM "s7" msgsC7) "s7"
        Option.none).length = 10 ∧
    min msgsC7.length 15 = 11 := by
  refine ⟨by decide, by decide, by decide⟩

/-- Role and content of a stored message, the projection the turn-level
theorems compare histories by. -/
def projRC (v : PyVal) : Option PyVal × Option PyVal :=
  (v.get "role", v.get "content")

/-- C7 (amended): a store constructed without an explicit `max_history`
has retention limit `10`, and sequential inserts into a session with no
pinned system message keep exactly the last `10` serialized messages. -/
theorem claim7_amended (sid : String) (msgs : List PyVal) :
    defaultCHM.max_history = 10 ∧
    ((addAll defaultCHM sid msgs).conversations sid).getD [] =
      (msgs.map make_serializable).rtake 10 := by
  refine ⟨rfl, ?_⟩
  have h := addAll_rtake sid msgs defaultCHM [] rfl rfl (by decide)
    (by decide)
  simpa using h.1

/-! ## Claims C1, C2, C5 -/

/-- C1: counterexample.  In a turn with one successful tool call, the
stored history is `[user, assistant, tool, final]` with `sequence` fields
`[1, 2, —, 5]`: the tool-result message (src/core/agent.py,
lines 289-294) carries no `sequence` at all, and the yielded events
consume sequence numbers (3, 4, 6), so the stored values jump from 2 to 5.
The claim — every stored message carries a sequence, strictly increasing
with no gaps — fails on this run. -/
theorem claim1_counterexample :
    (runC1.1.memory.get_recent_messages "s1" Option.none).map seqField =
      [some (PyVal.int 1), some (PyVal.int 2), Option.none,
        some (PyVal.int 5)] ∧
    seqsStrictNoGaps
      (runC1.1.memory.get_recent_messages "s1" Option.none) = false :=
  ⟨rfl, rfl⟩

/-- C1 (amended): the per-session counter itself is strictly monotonic
and never reuses a value — `k` successive `next_sequence` calls return
the consecutive values `c+1, …, c+k` — but sequence numbers are also
consumed by yielded events and the tool-result message is stored without
a `sequence` field, so the sequences visible in
`get_recent_messages(None)` can have gaps or be absent (see the
counterexample). -/
theorem claim1_amended (m : ChatHistoryManager) (sid : String) (k : Nat) :
    nextSeqRun m sid k =
      (List.range k).map
        (fun i => (m.sequence_counters sid).getD 0 + i + 1) ∧
    List.Pairwise (fun a b => a < b) (nextSeqRun m sid k) := by
  have main : ∀ (n : Nat) (m0 : ChatHistoryManager),
      nextSeqRun m0 sid n =
        (List.range n).map
          (fun i => (m0.sequence_counters sid).getD 0 + i + 1) := by
    intro n
    induction n with
    | zero => intro m0; rfl
    | succ j ih =>
        intro m0
        rw [nextSeqRun, ih, List.range_succ_eq_map]
        simp only [List.map_cons, List.map_map,
          ChatHistoryManager.next_sequence_val,
          ChatHistoryManager.next_sequence_counter, Option.getD_some,
          Nat.add_zero]
        congr 1
        apply List.map_congr_left
        intro i _
        simp only [Function.comp_apply]
        omega
  refine ⟨main k m, ?_⟩
  rw [main k m]
  exact (List.pairwise_lt_range k).map _ (fun h => by omega)

/-- C2: counterexample.  When the initial backend call raises, the code
first appends a `role: system` error message to the session history
(src/core/agent.py, line 152) and only then yields the
`error`/`initial_call` event: after the failed turn the history holds the
user message plus one appended system message, so the claim that the
failed step appends nothing is false. -/
theorem claim2_counterexample :
    runC2.2.map (fun ev => (ev.status, ev.stage)) =
      [("error", "initial_call")] ∧
    (runC2.1.memory.get_recent_messages "s2" Option.none).map projRC =
      [(some (PyVal.str "user"), some (PyVal.str "hello")),
       (some (PyVal.str "system"),
        some (PyVal.str "Error contacting LLM: connection refused"))] ∧
    (runC2.1.memory.get_recent_messages "s2" Option.none).length ≠ 1 :=
  ⟨rfl, rfl, by intro h; simp [show
    (runC2.1.memory.get_recent_messages "s2" Option.none).length = 2
    from rfl] at h⟩

/-- One ingest step as `run_agent` performs it: a `next_sequence` draw
followed by `add_message`, on a session with no pinned system message and
room in the history. -/
theorem add_after_next (m : ChatHistoryManager) (sid : String) (u : PyVal)
    (cur : List PyVal) (hsys : m.system_messages sid = Option.none)
    (hcur : (m.conversations sid).getD [] = cur)
    (hlen : cur.length + 1 ≤ m.max_history) :
    ((m.next_sequence sid).1.add_message sid u).conversations sid =
      some (cur ++ [make_serializable u]) ∧
    ((m.next_sequence sid).1.add_message sid u).system_messages sid =
      Option.none ∧
    ((m.next_sequence sid).1.add_message sid u).max_history =
      m.max_history := by
  have hsysA : (m.next_sequence sid).1.system_messages sid =
      Option.none := by
    rw [ChatHistoryManager.next_sequence_system]; exact hsys
  have hcurA : ((m.next_sequence sid).1.conversations sid).getD [] =
      cur := by
    simp [ChatHistoryManager.next_sequence_conversations, hcur]
  have hlenA : cur.length + 1 ≤ (m.next_sequence sid).1.max_history := by
    rw [ChatHistoryManager.next_sequence_max]; omega
  refine ⟨ChatHistoryManager.add_message_append _ sid u cur hsysA hcurA
    hlenA, ?_, ?_⟩
  · rw [ChatHistoryManager.add_message_system]; exact hsysA
  · rw [ChatHistoryManager.add_message_max,
      ChatHistoryManager.next_sequence_max]

/-- Ingest on a turn without system prompt and without supplied
correlation ids: memory after. -/
theorem ingest_plain_memory (m : ChatHistoryManager) (sid ui : String) :
    (ingest m sid ui Option.none Option.none Option.none
      Option.none).1.memory =
      (m.next_sequence sid).1.add_message sid
        (userMsgP ui ("u" ++ toString (0 + 1 + 1)) PyVal.none
          ("u" ++ toString (0 + 1)) ("u" ++ toString 0)
          (m.next_sequence sid).2
          ("t" ++ toString (0 + 1 + 1 + 1))) := rfl

theorem ingest_plain_supply (m : ChatHistoryManager) (sid ui : String) :
    (ingest m sid ui Option.none Option.none Option.none
      Option.none).1.supply = 4 := rfl

theorem ingest_plain_cid (m : ChatHistoryManager) (sid ui : String) :
    (ingest m sid ui Option.none Option.none Option.none
      Option.none).2.1 = "u" ++ toString (0 + 1) := rfl

theorem ingest_plain_uiid (m : ChatHistoryManager) (sid ui : String) :
    (ingest m sid ui Option.none Option.none Option.none
      Option.none).2.2.1 = "u" ++ toString 0 := rfl

theorem ingest_plain_pid (m : ChatHistoryManager) (sid ui : String) :
    (ingest m sid ui Option.none Option.none Option.none
      Option.none).2.2.2 = "u" ++ toString (0 + 1 + 1) := rfl

theorem append_system_error_memory (st : AgentState)
    (sid cid uiid pid content stage : String) :
    (append_system_error st sid cid uiid pid content stage).1.memory =
      (((st.memory.next_sequence sid).1.add_message sid
        (sysErrMsg content ("u" ++ toString st.supply) pid cid uiid
          (st.memory.next_sequence sid).2
          ("t" ++ toString (st.supply + 1)))).next_sequence sid).1 := rfl

theorem append_system_error_events (st : AgentState)
    (sid cid uiid pid content stage : String) :
    (append_system_error st sid cid uiid pid content stage).2.map
      (fun ev => (ev.status, ev.stage)) = [("error", stage)] := rfl

theorem run_agent_exn_eq (e : String) (fin : FinalOutcome)
    (fns : String → Option (PyVal → ToolOutcome))
    (jl : String → Option PyVal) (ui : String) (m : ChatHistoryManager)
    (sid : String) (sm uiid0 pid0 cid0 : Option String) :
    run_agent ⟨InitialOutcome.exn e, fin, fns, jl⟩ ui m sid sm uiid0
      pid0 cid0 =
      append_system_error (ingest m sid ui sm uiid0 pid0 cid0).1 sid
        (ingest m sid ui sm uiid0 pid0 cid0).2.1
        (ingest m sid ui sm uiid0 pid0 cid0).2.2.1
        (ingest m sid ui sm uiid0 pid0 cid0).2.2.2
        ("Error contacting LLM: " ++ e) "initial_call" := rfl

set_option maxHeartbeats 2000000 in
/-- C2 (amended): when the initial backend call fails, the turn emits
exactly one event — status `error`, stage `initial_call` — and stops; but
the failed step does not leave the history unchanged: beyond the ingested
user message it appends one `role: system` message whose content wraps the
backend error. -/
theorem claim2_amended (m : ChatHistoryManager) (e user_input sid : String)
    (fin : FinalOutcome) (fns : String → Option (PyVal → ToolOutcome))
    (jl : String → Option PyVal)
    (hsys : m.system_messages sid = Option.none)
    (hlen : ((m.conversations sid).getD []).length + 2 ≤ m.max_history) :
    (run_agent ⟨InitialOutcome.exn e, fin, fns, jl⟩ user_input m sid
        Option.none Option.none Option.none Option.none).2.map
      (fun ev => (ev.status, ev.stage)) = [("error", "initial_call")] ∧
    (((run_agent ⟨InitialOutcome.exn e, fin, fns, jl⟩ user_input m sid
        Option.none Option.none Option.none
        Option.none).1.memory).get_recent_messages sid
        Option.none).map projRC =
      ((m.conversations sid).getD []).map projRC ++
        [(some (PyVal.str "user"), some (PyVal.str user_input)),
         (some (PyVal.str "system"),
          some (PyVal.str ("Error contacting LLM: " ++ e)))] := by
  constructor
  · rw [run_agent_exn_eq]
    exact append_system_error_events _ _ _ _ _ _ _
  · rw [run_agent_exn_eq, append_system_error_memory,
      ingest_plain_memory, ingest_plain_supply, ingest_plain_cid,
      ingest_plain_uiid, ingest_plain_pid,
      ChatHistoryManager.get_recent_none,
      ChatHistoryManager.next_sequence_conversations, Option.getD_some]
    have s1 := add_after_next m sid
      (userMsgP user_input ("u" ++ toString (0 + 1 + 1)) PyVal.none
        ("u" ++ toString (0 + 1)) ("u" ++ toString 0)
        (m.next_sequence sid).2 ("t" ++ toString (0 + 1 + 1 + 1)))
      ((m.conversations sid).getD []) hsys rfl (by omega)
    have s2 := add_after_next
      ((m.next_sequence sid).1.add_message sid
        (userMsgP user_input ("u" ++ toString (0 + 1 + 1)) PyVal.none
          ("u" ++ toString (0 + 1)) ("u" ++ toString 0)
          (m.next_sequence sid).2 ("t" ++ toString (0 + 1 + 1 + 1)))) sid
      (sysErrMsg ("Error contacting LLM: " ++ e) ("u" ++ toString 4)
        ("u" ++ toString (0 + 1 + 1)) ("u" ++ toString (0 + 1))
        ("u" ++ toString 0)
        (((m.next_sequence sid).1.add_message sid
          (userMsgP user_input ("u" ++ toString (0 + 1 + 1)) PyVal.none
            ("u" ++ toString (0 + 1)) ("u" ++ toString 0)
            (m.next_sequence sid).2
            ("t" ++ toString (0 + 1 + 1 + 1)))).next_sequence
          sid).2 ("t" ++ toString (4 + 1)))
      ((m.conversations sid).getD [] ++
        [make_serializable
          (userMsgP user_input ("u" ++ toString (0 + 1 + 1)) PyVal.none
            ("u" ++ toString (0 + 1)) ("u" ++ toString 0)
            (m.next_sequence sid).2 ("t" ++ toString (0 + 1 + 1 + 1)))])
      s1.2.1 (by rw [s1.1]; rfl)
      (by rw [s1.2.2]; simp only [List.length_append, List.length_cons,
        List.length_nil]; omega)
    rw [s2.1, Option.getD_some]
    simp only [List.map_append, List.append_assoc, List.nil_append,
      List.singleton_append, List.map_cons, List.map_nil]
    simp [projRC, userMsgP, sysErrMsg, make_serializable, msEntries,
      pyStr, PyVal.get, dictGet]

theorem claim2_amended_witness :
    (run_agent ⟨InitialOutcome.exn "boom", FinalOutcome.falsyResponse,
        fun _ => Option.none, fun _ => Option.none⟩ "hello" defaultCHM
        "w2" Option.none Option.none Option.none Option.none).2.map
      (fun ev => (ev.status, ev.stage)) = [("error", "initial_call")] ∧
    (((run_agent ⟨InitialOutcome.exn "boom", FinalOutcome.falsyResponse,
        fun _ => Option.none, fun _ => Option.none⟩ "hello" defaultCHM
        "w2" Option.none Option.none Option.none
        Option.none).1.memory).get_recent_messages "w2"
        Option.none).map projRC =
      ((defaultCHM.conversations "w2").getD []).map projRC ++
        [(some (PyVal.str "user"), some (PyVal.str "hello")),
         (some (PyVal.str "system"),
          some (PyVal.str ("Error contacting LLM: " ++ "boom")))] :=
  claim2_amended defaultCHM "boom" "hello" "w2" FinalOutcome.falsyResponse
    (fun _ => Option.none) (fun _ => Option.none) rfl (by decide)

theorem run_agent_message_eq (msg0 : PyVal) (fin : FinalOutcome)
    (fns : String → Option (PyVal → ToolOutcome))
    (jl : String → Option PyVal) (ui : String) (m : ChatHistoryManager)
    (sid : String) (sm uiid0 pid0 cid0 : Option String) :
    run_agent ⟨InitialOutcome.message msg0, fin, fns, jl⟩ ui m sid sm
      uiid0 pid0 cid0 =
      runWithInitialMessage ⟨InitialOutcome.message msg0, fin, fns, jl⟩
        sid (ingest m sid ui sm uiid0 pid0 cid0).2.1
        (ingest m sid ui sm uiid0 pid0 cid0).2.2.1
        (ingest m sid ui sm uiid0 pid0 cid0).2.2.2
        (ingest m sid ui sm uiid0 pid0 cid0).1 msg0 := rfl

theorem runWith_assistantEmpty (env : AgentEnv)
    (sid cid uiid pid : String) (st : AgentState) :
    runWithInitialMessage env sid cid uiid pid st assistantEmptyMsg =
      finalPhase env sid cid uiid ("u" ++ toString st.supply)
        ⟨(st.memory.next_sequence sid).1.add_message sid
          (assistantSetMsg ("u" ++ toString st.supply) pid cid uiid
            (st.memory.next_sequence sid).2
            ("t" ++ toString (st.supply + 1))),
         st.supply + 2⟩ [] := rfl

theorem finalPhase_null_memory (ini : InitialOutcome)
    (fns : String → Option (PyVal → ToolOutcome))
    (jl : String → Option PyVal) (sid cid uiid pid : String)
    (st : AgentState) (evs : List Event) :
    (finalPhase ⟨ini, FinalOutcome.message (PyVal.dict
        [(PyVal.str "role", PyVal.str "assistant"),
         (PyVal.str "content", PyVal.none)]), fns, jl⟩ sid cid uiid pid
      st evs).1.memory =
      ((st.memory.next_sequence sid).1.next_sequence sid).1 := rfl

theorem finalPhase_null_events_map (ini : InitialOutcome)
    (fns : String → Option (PyVal → ToolOutcome))
    (jl : String → Option PyVal) (sid cid uiid pid : String)
    (st : AgentState) (evs : List Event) :
    (finalPhase ⟨ini, FinalOutcome.message (PyVal.dict
        [(PyVal.str "role", PyVal.str "assistant"),
         (PyVal.str "content", PyVal.none)]), fns, jl⟩ sid cid uiid pid
      st evs).2.map (fun ev => (ev.status, ev.stage)) =
      evs.map (fun ev => (ev.status, ev.stage)) ++
        [("error", "final_response")] := by
  have h : (finalPhase ⟨ini, FinalOutcome.message (PyVal.dict
      [(PyVal.str "role", PyVal.str "assistant"),
       (PyVal.str "content", PyVal.none)]), fns, jl⟩ sid cid uiid pid
      st evs).2 =
      evs ++ [⟨"error", "final_response",
        some (((st.memory.next_sequence sid).1.next_sequence sid).2)⟩] :=
    rfl
  rw [h, List.map_append]
  rfl

theorem finalPhase_some_memory (c : String) (ini : InitialOutcome)
    (fns : String → Option (PyVal → ToolOutcome))
    (jl : String → Option PyVal) (sid cid uiid pid : String)
    (st : AgentState) (evs : List Event) :
    (finalPhase ⟨ini, FinalOutcome.message (PyVal.dict
        [(PyVal.str "role", PyVal.str "assistant"),
         (PyVal.str "content", PyVal.str c)]), fns, jl⟩ sid cid uiid pid
      st evs).1.memory =
      (((st.memory.next_sequence sid).1.add_message sid
        (finalSetMsg c ("u" ++ toString st.supply) pid cid uiid
          (st.memory.next_sequence sid).2
          ("t" ++ toString (st.supply + 1)))).next_sequence sid).1 := rfl

theorem finalPhase_some_events_map (c : String) (ini : InitialOutcome)
    (fns : String → Option (PyVal → ToolOutcome))
    (jl : String → Option PyVal) (sid cid uiid pid : String)
    (st : AgentState) (evs : List Event) :
    (finalPhase ⟨ini, FinalOutcome.message (PyVal.dict
        [(PyVal.str "role", PyVal.str "assistant"),
         (PyVal.str "content", PyVal.str c)]), fns, jl⟩ sid cid uiid pid
      st evs).2.map (fun ev => (ev.status, ev.stage)) =
      evs.map (fun ev => (ev.status, ev.stage)) ++
        [("success", "final_response")] := by
  have h : (finalPhase ⟨ini, FinalOutcome.message (PyVal.dict
      [(PyVal.str "role", PyVal.str "assistant"),
       (PyVal.str "content", PyVal.str c)]), fns, jl⟩ sid cid uiid pid
      st evs).2 =
      evs ++ [⟨"success", "final_response",
        some ((((st.memory.next_sequence sid).1.add_message sid
          (finalSetMsg c ("u" ++ toString st.supply) pid cid uiid
            (st.memory.next_sequence sid).2
            ("t" ++ toString (st.supply + 1)))).next_sequence
          sid).2)⟩] := rfl
  rw [h, List.map_append]
  rfl

/-- C5: counterexample.  With a `content = None` final message the turn
yields exactly one event, at stage `final_response` with status
`"error"` (src/core/agent.py, line 484) — only the log line uses the
warning level — so the claimed warning-level event does not exist. -/
theorem claim5_counterexample :
    runC5.2.map (fun ev => (ev.status, ev.stage)) =
      [("error", "final_response")] ∧
    ∀ ev ∈ runC5.2, ev.status ≠ "warning" := by
  refine ⟨rfl, ?_⟩
  intro ev hev
  rw [show runC5.2 = [⟨"error", "final_response", some 4⟩] from rfl]
    at hev
  simp at hev
  rw [hev]
  simp

set_option maxHeartbeats 1000000 in
/-- C5 (amended): in step 6, a final message whose `content` is `None`
yields an event with status `"error"` at stage `final_response` (the
warning level appears only in the log), and nothing is appended — the
history gains only the user and initial-assistant messages; a final
message with any non-null content, the empty string included, is appended
and yields a `success` event at stage `final_response`. -/
theorem claim5_amended (m : ChatHistoryManager)
    (sid user_input c : String)
    (fns : String → Option (PyVal → ToolOutcome))
    (jl : String → Option PyVal)
    (hsys : m.system_messages sid = Option.none)
    (hlen : ((m.conversations sid).getD []).length + 3 ≤ m.max_history) :
    ((run_agent ⟨InitialOutcome.message assistantEmptyMsg,
        FinalOutcome.message (PyVal.dict
          [(PyVal.str "role", PyVal.str "assistant"),
           (PyVal.str "content", PyVal.none)]), fns, jl⟩ user_input m sid
        Option.none Option.none Option.none Option.none).2.map
      (fun ev => (ev.status, ev.stage)) = [("error", "final_response")] ∧
     (((run_agent ⟨InitialOutcome.message assistantEmptyMsg,
        FinalOutcome.message (PyVal.dict
          [(PyVal.str "role", PyVal.str "assistant"),
           (PyVal.str "content", PyVal.none)]), fns, jl⟩ user_input m sid
        Option.none Option.none Option.none
        Option.none).1.memory).get_recent_messages sid
        Option.none).length =
      ((m.conversations sid).getD []).length + 2) ∧
    ((run_agent ⟨InitialOutcome.message assistantEmptyMsg,
        FinalOutcome.message (PyVal.dict
          [(PyVal.str "role", PyVal.str "assistant"),
           (PyVal.str "content", PyVal.str c)]), fns, jl⟩ user_input m sid
        Option.none Option.none Option.none Option.none).2.map
      (fun ev => (ev.status, ev.stage)) =
        [("success", "final_response")] ∧
     (((run_agent ⟨InitialOutcome.message assistantEmptyMsg,
        FinalOutcome.message (PyVal.dict
          [(PyVal.str "role", PyVal.str "assistant"),
           (PyVal.str "content", PyVal.str c)]), fns, jl⟩ user_input m sid
        Option.none Option.none Option.none
        Option.none).1.memory).get_recent_messages sid
        Option.none).map projRC =
      ((m.conversations sid).getD []).map projRC ++
        [(some (PyVal.str "user"), some (PyVal.str user_input)),
         (some (PyVal.str "assistant"), some (PyVal.str "")),
         (some (PyVal.str "assistant"), some (PyVal.str c))]) := by
  have s1 := add_after_next m sid
    (userMsgP user_input ("u" ++ toString (0 + 1 + 1)) PyVal.none
      ("u" ++ toString (0 + 1)) ("u" ++ toString 0)
      (m.next_sequence sid).2 ("t" ++ toString (0 + 1 + 1 + 1)))
    ((m.conversations sid).getD []) hsys rfl (by omega)
  have s2 := add_after_next
    ((m.next_sequence sid).1.add_message sid
      (userMsgP user_input ("u" ++ toString (0 + 1 + 1)) PyVal.none
        ("u" ++ toString (0 + 1)) ("u" ++ toString 0)
        (m.next_sequence sid).2 ("t" ++ toString (0 + 1 + 1 + 1)))) sid
    (assistantSetMsg ("u" ++ toString 4) ("u" ++ toString (0 + 1 + 1))
      ("u" ++ toString (0 + 1)) ("u" ++ toString 0)
      (((m.next_sequence sid).1.add_message sid
        (userMsgP user_input ("u" ++ toString (0 + 1 + 1)) PyVal.none
          ("u" ++ toString (0 + 1)) ("u" ++ toString 0)
          (m.next_sequence sid).2
          ("t" ++ toString (0 + 1 + 1 + 1)))).next_sequence sid).2
      ("t" ++ toString (4 + 1)))
    ((m.conversations sid).getD [] ++
      [make_serializable
        (userMsgP user_input ("u" ++ toString (0 + 1 + 1)) PyVal.none
          ("u" ++ toString (0 + 1)) ("u" ++ toString 0)
          (m.next_sequence sid).2 ("t" ++ toString (0 + 1 + 1 + 1)))])
    s1.2.1 (by rw [s1.1]; rfl)
    (by rw [s1.2.2]; simp only [List.length_append, List.length_cons,
      List.length_nil]; omega)
  refine ⟨⟨?_, ?_⟩, ?_, ?_⟩
  · rw [run_agent_message_eq, runWith_assistantEmpty,
      finalPhase_null_events_map]
    rfl
  · rw [run_agent_message_eq, runWith_assistantEmpty, ingest_plain_memory,
      ingest_plain_supply, ingest_plain_cid, ingest_plain_uiid,
      ingest_plain_pid, finalPhase_null_memory,
      ChatHistoryManager.get_recent_none]
    simp only [ChatHistoryManager.next_sequence_conversations,
      Option.getD_some]
    rw [s2.1, Option.getD_some]
    simp only [List.length_append, List.length_cons, List.length_nil]
  · rw [run_agent_message_eq, runWith_assistantEmpty,
      finalPhase_some_events_map]
    rfl
  · rw [run_agent_message_eq, runWith_assistantEmpty, ingest_plain_memory,
      ingest_plain_supply, ingest_plain_cid, ingest_plain_uiid,
      ingest_plain_pid, finalPhase_some_memory,
      ChatHistoryManager.get_recent_none]
    have s3 := add_after_next
      ((((m.next_sequence sid).1.add_message sid
        (userMsgP user_input ("u" ++ toString (0 + 1 + 1)) PyVal.none
          ("u" ++ toString (0 + 1)) ("u" ++ toString 0)
          (m.next_sequence sid).2
          ("t" ++ toString (0 + 1 + 1 + 1)))).next_sequence
        sid).1.add_message sid
        (assistantSetMsg ("u" ++ toString 4)
          ("u" ++ toString (0 + 1 + 1)) ("u" ++ toString (0 + 1))
          ("u" ++ toString 0)
          (((m.next_sequence sid).1.add_message sid
            (userMsgP user_input ("u" ++ toString (0 + 1 + 1)) PyVal.none
              ("u" ++ toString (0 + 1)) ("u" ++ toString 0)
              (m.next_sequence sid).2
              ("t" ++ toString (0 + 1 + 1 + 1)))).next_sequence sid).2
          ("t" ++ toString (4 + 1)))) sid
      (finalSetMsg c ("u" ++ toString (4 + 2))
        ("u" ++ toString 4) ("u" ++ toString (0 + 1))
        ("u" ++ toString 0)
        ((((((m.next_sequence sid).1.add_message sid
          (userMsgP user_input ("u" ++ toString (0 + 1 + 1)) PyVal.none
            ("u" ++ toString (0 + 1)) ("u" ++ toString 0)
            (m.next_sequence sid).2
            ("t" ++ toString (0 + 1 + 1 + 1)))).next_sequence
          sid).1.add_message sid
          (assistantSetMsg ("u" ++ toString 4)
            ("u" ++ toString (0 + 1 + 1)) ("u" ++ toString (0 + 1))
            ("u" ++ toString 0)
            (((m.next_sequence sid).1.add_message sid
              (userMsgP user_input ("u" ++ toString (0 + 1 + 1))
                PyVal.none ("u" ++ toString (0 + 1))
                ("u" ++ toString 0) (m.next_sequence sid).2
                ("t" ++ toString (0 + 1 + 1 + 1)))).next_sequence
              sid).2 ("t" ++ toString (4 + 1)))).next_sequence sid).2)
        ("t" ++ toString (4 + 2 + 1)))
      ((m.conversations sid).getD [] ++
        [make_serializable
          (userMsgP user_input ("u" ++ toString (0 + 1 + 1)) PyVal.none
            ("u" ++ toString (0 + 1)) ("u" ++ toString 0)
            (m.next_sequence sid).2
            ("t" ++ toString (0 + 1 + 1 + 1)))] ++
        [make_serializable
          (assistantSetMsg ("u" ++ toString 4)
            ("u" ++ toString (0 + 1 + 1)) ("u" ++ toString (0 + 1))
            ("u" ++ toString 0)
            (((m.next_sequence sid).1.add_message sid
              (userMsgP user_input ("u" ++ toString (0 + 1 + 1))
                PyVal.none ("u" ++ toString (0 + 1))
                ("u" ++ toString 0) (m.next_sequence sid).2
                ("t" ++ toString (0 + 1 + 1 + 1)))).next_sequence
              sid).2 ("t" ++ toString (4 + 1)))])
      s2.2.1 (by rw [s2.1]; rfl)
      (by rw [s2.2.2, s1.2.2]; simp only [List.length_append,
        List.length_cons, List.length_nil]; omega)
    simp only [ChatHistoryManager.next_sequence_conversations,
      Option.getD_some]
    rw [s3.1, Option.getD_some]
    simp only [List.map_append, List.append_assoc, List.nil_append,
      List.singleton_append, List.map_cons, List.map_nil]
    simp [projRC, userMsgP, assistantSetMsg, finalSetMsg,
      make_serializable, msEntries, pyStr, PyVal.get, dictGet]

theorem claim5_amended_witness :
    ((run_agent ⟨InitialOutcome.message assistantEmptyMsg,
        FinalOutcome.message (PyVal.dict
          [(PyVal.str "role", PyVal.str "assistant"),
           (PyVal.str "content", PyVal.none)]),
        fun _ => Option.none, fun _ => Option.none⟩ "hi" defaultCHM
        "w5" Option.none Option.none Option.none Option.none).2.map
      (fun ev => (ev.status, ev.stage)) = [("error", "final_response")] ∧
     (((run_agent ⟨InitialOutcome.message assistantEmptyMsg,
        FinalOutcome.message (PyVal.dict
          [(PyVal.str "role", PyVal.str "assistant"),
           (PyVal.str "content", PyVal.none)]),
        fun _ => Option.none, fun _ => Option.none⟩ "hi" defaultCHM
        "w5" Option.none Option.none Option.none
        Option.none).1.memory).get_recent_messages "w5"
        Option.none).length =
      ((defaultCHM.conversations "w5").getD []).length + 2) ∧
    ((run_agent ⟨InitialOutcome.message assistantEmptyMsg,
        FinalOutcome.message (PyVal.dict
          [(PyVal.str "role", PyVal.str "assistant"),
           (PyVal.str "content", PyVal.str "")]),
        fun _ => Option.none, fun _ => Option.none⟩ "hi" defaultCHM
        "w5" Option.none Option.none Option.none Option.none).2.map
      (fun ev => (ev.status, ev.stage)) =
        [("success", "final_response")] ∧
     (((run_agent ⟨InitialOutcome.message assistantEmptyMsg,
        FinalOutcome.message (PyVal.dict
          [(PyVal.str "role", PyVal.str "assistant"),
           (PyVal.str "content", PyVal.str "")]),
        fun _ => Option.none, fun _ => Option.none⟩ "hi" defaultCHM
        "w5" Option.none Option.none Option.none
        Option.none).1.memory).get_recent_messages "w5"
        Option.none).map projRC =
      ((defaultCHM.conversations "w5").getD []).map projRC ++
        [(some (PyVal.str "user"), some (PyVal.str "hi")),
         (some (PyVal.str "assistant"), some (PyVal.str "")),
         (some (PyVal.str "assistant"), some (PyVal.str ""))]) :=
  claim5_amended defaultCHM "w5" "hi" "" (fun _ => Option.none)
    (fun _ => Option.none) rfl (by decide)

/-! ## Claim C6 -/

theorem checkField_nil_iff (f : PyVal) (field : String)
    (isa : PyVal → Bool) (ty : String) :
    checkField f field isa ty = [] ↔ (f.get field).map isa = some true := by
  unfold checkField
  cases hg : f.get field with
  | none => simp
  | some v => cases hv : isa v <;> simp [hv]

/-- The code-side acceptance condition of `validate_tool_schema` matches
the spec-side shape predicate. -/
theorem validate_tool_schema_nil_iff (info : PyVal) :
    validate_tool_schema info = [] ↔ hasValidShape info = true := by
  unfold validate_tool_schema hasValidShape
  cases hf : info.get "function" with
  | none => simp
  | some f =>
      cases hp : f.get "parameters" with
      | none =>
          simp [checkField_nil_iff, hp]
      | some params =>
          cases hd : isDict params <;>
            cases hpp : pyContains params "properties" <;>
              cases hpr : pyContains params "required" <;>
                simp [checkField_nil_iff, hp, hd, hpp, hpr,
                  List.append_eq_nil]

/-- C6: counterexample.  Registering a second valid tool under an
already-registered name does not fail: `register` performs no duplicate
check (src/core/tool_registry.py, line 78 assigns unconditionally), so the
second registration succeeds and silently replaces the existing binding,
contradicting both "fails" and "leaves the existing binding unchanged". -/
theorem claim6_counterexample :
    regWithA.tools "place_pizza_order" = some toolA ∧
    exceptOk (regWithA.register toolB) = true ∧
    (okReg (regWithA.register toolB)).tools "place_pizza_order" =
      some toolB ∧
    toolB ≠ toolA := by
  refine ⟨rfl, rfl, rfl, ?_⟩
  intro h
  have hdesc := congrArg (fun t : PizzaAssistTool =>
    (t.info.get "function").bind (fun f => f.get "description")) h
  simp only [toolA, toolB, toolFnA, toolFnB, validParams,
    PyVal.get] at hdesc
  simp [dictGet] at hdesc

/-- C6 (amended): registration rejects a schema that is missing `name`,
`description`, or a `parameters` object carrying `properties` and
`required` (`validate_tool_schema` accepts exactly the well-shaped
schemas), and an invalid schema leaves the registry unchanged; but
duplicate names are NOT rejected: with a valid schema, `register` succeeds
unconditionally and binds the name to the new tool, overwriting any
existing binding. -/
theorem claim6_amended (r : ToolRegistry) (t : PizzaAssistTool)
    (f : PyVal) (name : String)
    (hfun : t.info.get "function" = some f)
    (hname : f.get "name" = some (PyVal.str name)) :
    (validate_tool_schema t.info = [] →
      r.register t = Except.ok ⟨mapSet r.tools name t⟩ ∧
      (okReg (r.register t)).tools name = some t) ∧
    (validate_tool_schema t.info ≠ [] →
      r.register t = Except.error ("Invalid tool schema: " ++
        String.intercalate "; " (validate_tool_schema t.info))) ∧
    (∀ info : PyVal,
      validate_tool_schema info = [] ↔ hasValidShape info = true) := by
  refine ⟨?_, ?_, validate_tool_schema_nil_iff⟩
  · intro hok
    have hreg : r.register t = Except.ok ⟨mapSet r.tools name t⟩ := by
      unfold ToolRegistry.register
      rw [hok]
      simp only [List.isEmpty_nil, if_true, hfun, hname]
    refine ⟨hreg, ?_⟩
    rw [hreg]
    simp [okReg, mapSet]
  · intro hbad
    unfold ToolRegistry.register
    rw [if_neg (by simpa [List.isEmpty_iff] using hbad)]

theorem claim6_amended_witness :
    (validate_tool_schema toolB.info = [] →
      regWithA.register toolB =
        Except.ok ⟨mapSet regWithA.tools "place_pizza_order" toolB⟩ ∧
      (okReg (regWithA.register toolB)).tools "place_pizza_order" =
        some toolB) ∧
    (validate_tool_schema toolB.info ≠ [] →
      regWithA.register toolB = Except.error ("Invalid tool schema: " ++
        String.intercalate "; " (validate_tool_schema toolB.info))) ∧
    (∀ info : PyVal,
      validate_tool_schema info = [] ↔ hasValidShape info = true) :=
  claim6_amended regWithA toolB toolFnB "place_pizza_order" rfl rfl

/-! ## Claims C8 and C9 -/

/-- C8: counterexample.  The claim quantifies over every partition, but
the documents partition violates it: `setup_document_store` with an empty
source set returns `None` (src/core/vector_store.py, lines 421-423), not
an empty queryable retriever. -/
theorem claim8_counterexample :
    setup_document_store (fun _ => Option.none) [] Option.none
      "mxbai-embed-large" "restaurant_reviews" false [] [] false =
      Option.none := rfl

/-- C8 (amended): the memory partitions do yield an explicitly empty but
queryable retriever on an empty source set — shared mode with no session
files, isolated mode with a missing session file, and a rebuild that finds
no conversation documents all return the empty memory retriever rather
than `None`; the documents partition instead returns `None`/absence when
`file_paths` is empty (and likewise when no listed file exists or nothing
parses). -/
theorem claim8_amended (history_dir : String) (fs : FileSys)
    (stored : Option StoreMetadata) (em : String) (ce : Bool)
    (existingDocs memoryDocs : List String) (force : Bool)
    (historyFiles : List String) (sid : String) :
    (historyFiles = [] →
      setup_memory_store true history_dir historyFiles fs stored em ce
        existingDocs memoryDocs force Option.none =
        some ⟨"memory_collection", [], 3⟩) ∧
    (fs (history_dir ++ "/" ++ sid ++ ".jsonl") = Option.none →
      setup_memory_store false history_dir historyFiles fs stored em ce
        existingDocs memoryDocs force (some sid) =
        some ⟨"memory_collection", [], 3⟩) ∧
    (memoryDocs = [] →
      needs_refresh force stored (get_files_hash fs historyFiles) em =
        true →
      setup_memory_store true history_dir historyFiles fs stored em ce
        existingDocs memoryDocs force Option.none =
        some ⟨"memory_collection", [], 3⟩) ∧
    setup_document_store fs [] stored em "restaurant_reviews" ce
      existingDocs [] force = Option.none := by
  refine ⟨?_, ?_, ?_, rfl⟩
  · intro h
    simp [setup_memory_store, h, create_empty_memory_store]
  · intro h
    simp [setup_memory_store, h, create_empty_memory_store]
  · intro hdocs hneeds
    by_cases h : historyFiles.isEmpty
    · simp [setup_memory_store, h, create_empty_memory_store]
    · simp [setup_memory_store, setup_memory_store_main, h, hneeds,
        hdocs, create_empty_memory_store]

theorem claim8_amended_witness :
    (([] : List String) = [] →
      setup_memory_store true "data/history" [] (fun _ => Option.none)
        Option.none "mxbai-embed-large" false [] [] false Option.none =
        some ⟨"memory_collection", [], 3⟩) ∧
    ((fun _ => Option.none : FileSys)
        ("data/history" ++ "/" ++ "s1" ++ ".jsonl") = Option.none →
      setup_memory_store false "data/history" [] (fun _ => Option.none)
        Option.none "mxbai-embed-large" false [] [] false (some "s1") =
        some ⟨"memory_collection", [], 3⟩) ∧
    (([] : List String) = [] →
      needs_refresh false Option.none
        (get_files_hash (fun _ => Option.none) []) "mxbai-embed-large" =
        true →
      setup_memory_store true "data/history" [] (fun _ => Option.none)
        Option.none "mxbai-embed-large" false [] [] false Option.none =
        some ⟨"memory_collection", [], 3⟩) ∧
    setup_document_store (fun _ => Option.none) [] Option.none
      "mxbai-embed-large" "restaurant_reviews" false [] [] false =
      Option.none :=
  claim8_amended "data/history" (fun _ => Option.none) Option.none
    "mxbai-embed-large" false [] [] false [] "s1"

theorem filterMap_congr_mem {α β : Type} {f g : α → Option β}
    (l : List α) (h : ∀ a ∈ l, f a = g a) :
    l.filterMap f = l.filterMap g := by
  induction l with
  | nil => rfl
  | cons x xs ih =>
      rw [List.filterMap_cons, List.filterMap_cons, h x (by simp),
        ih (fun a ha => h a (by simp [ha]))]

/-- C9: the source fingerprint depends only on each file's modification
time and byte size, combined over the sorted file set (hence independent
of the order the paths are listed in, and of the file contents): two
builds whose per-file `(mtime, size)` pairs agree — contents free to
differ or be swapped — produce equal fingerprints, and with `force` off
the freshness check against the first build's stored metadata reports no
staleness. -/
theorem claim9_fingerprint (fs1 fs2 : FileSys)
    (paths1 paths2 : List String) (model : String)
    (hperm : paths1.Perm paths2)
    (hagree : ∀ p ∈ paths1,
      (fs1 p).map (fun st => (st.mtime, st.size)) =
      (fs2 p).map (fun st => (st.mtime, st.size))) :
    get_files_hash fs2 paths2 = get_files_hash fs1 paths1 ∧
    needs_refresh false (some ⟨get_files_hash fs1 paths1, model⟩)
      (get_files_hash fs2 paths2) model = false := by
  haveI : IsAntisymm String (fun a b => a ≤ b) :=
    ⟨fun a b h1 h2 => le_antisymm h1 h2⟩
  have hsorted : paths2.insertionSort (fun a b => a ≤ b) =
      paths1.insertionSort (fun a b => a ≤ b) :=
    List.eq_of_perm_of_sorted
      ((List.perm_insertionSort _ _).trans
        (hperm.symm.trans (List.perm_insertionSort _ _).symm))
      (List.sorted_insertionSort _ _) (List.sorted_insertionSort _ _)
  have hchunk : ∀ p ∈ paths1,
      (fs2 p).map (fun st => toString st.mtime ++ ":" ++ toString st.size)
        = (fs1 p).map
          (fun st => toString st.mtime ++ ":" ++ toString st.size) := by
    intro p hp
    have h2 := congrArg (Option.map
      (fun q : Nat × Nat => toString q.1 ++ ":" ++ toString q.2))
      (hagree p hp)
    simpa [Option.map_map, Function.comp] using h2.symm
  have hhash : get_files_hash fs2 paths2 = get_files_hash fs1 paths1 := by
    unfold get_files_hash
    have hlen := hperm.length_eq
    have hemp : paths2.isEmpty = paths1.isEmpty := by
      cases paths1 <;> cases paths2 <;> simp_all
    rw [hemp]
    by_cases he : paths1.isEmpty
    · simp [he]
    · rw [if_neg (by simp [he]), if_neg (by simp [he]), hsorted]
      apply congrArg
      apply filterMap_congr_mem
      intro p hp
      exact hchunk p
        (((List.perm_insertionSort (fun a b => a ≤ b) paths1).mem_iff).mp
          hp)
  refine ⟨hhash, ?_⟩
  rw [needs_refresh, hhash]
  simp

theorem claim9_fingerprint_witness :
    (["orders.txt", "menu.txt"].Perm ["menu.txt", "orders.txt"]) ∧
    (∀ p ∈ ["orders.txt", "menu.txt"],
      (fsSwapA p).map (fun st => (st.mtime, st.size)) =
      (fsSwapB p).map (fun st => (st.mtime, st.size))) ∧
    fsSwapA "menu.txt" ≠ fsSwapB "menu.txt" ∧
    (get_files_hash fsSwapB ["menu.txt", "orders.txt"] =
      get_files_hash fsSwapA ["orders.txt", "menu.txt"] ∧
    needs_refresh false
      (some ⟨get_files_hash fsSwapA ["orders.txt", "menu.txt"],
        "mxbai-embed-large"⟩)
      (get_files_hash fsSwapB ["menu.txt", "orders.txt"])
      "mxbai-embed-large" = false) :=
  ⟨by decide, by decide, by decide,
   claim9_fingerprint fsSwapA fsSwapB ["orders.txt", "menu.txt"]
     ["menu.txt", "orders.txt"] "mxbai-embed-large" (by decide)
     (by decide)⟩

end PizzaAssist
